import Mathlib

set_option maxRecDepth 8000

/-!
Verification of the budgetview bundle-analysis core against its
natural-language specification.

The development shallowly embeds the three analysis engines of the
repository:

* `JavaScriptAnalyzer.analyzeFile` (src/utils/bundleAnalyzer.ts, second
  compilation unit): a lexical analyzer over raw JavaScript text built
  from JavaScript regular-expression scans;
* `BundleAnalyzer.analyzeFiles` / `processFile` (src/utils/bundleAnalyzer.ts):
  ingestion of build-artifact files into a `BundleData` aggregate, plus the
  insight rule battery `generateInsights`;
* `PerformanceAnalyzer.calculatePerformanceScore`
  (src/utils/performanceAnalyzer.ts).

Modelling conventions:

* JavaScript numbers are embedded as `ℚ` (the arithmetic the code performs
  on them — sums, products by decimal constants, comparisons with integer
  thresholds, `Math.floor`, `Math.round` — is exact rational arithmetic on
  every value the claims touch; transcendental formatting helpers such as
  `formatSize`, which uses `Math.log`, produce presentation strings only and
  are not modelled).
* JavaScript strings are embedded as `String`/`List Char` (code points;
  the sources the claims touch are ASCII, where JS UTF-16 length agrees).
* The JS regular-expression scans are embedded by an explicit
  backtracking matcher `reRun` over a small pattern syntax `RE`, with the
  same greedy, leftmost-match, global-scan semantics that `RegExp.exec`
  with the `g` flag has on the patterns appearing in the source.  The
  matcher carries a recursion-depth fuel that is structurally decreasing so
  that it evaluates by kernel reduction; the fuel supplied by `matchAt` is
  larger than the depth any of the source's (star-height ≤ 1) patterns can
  reach on the given input.
* `file.text()` and `JSON.parse` are host capabilities: an `InputFile`
  record carries the text together with a `textOk` flag (a failing read
  throws, which `processFile` catches) and the parse result `json` as an
  oracle (`none` = `JSON.parse` throws).  Only the fields of the parsed
  object that the code reads are represented.
-/

/-! ### JS numbers

JavaScript numbers are embedded as explicit integer fractions with a
positive denominator.  Every number the analysed code computes on the
claims' paths is exactly representable and the operations used (sums,
products by decimal constants, divisions, comparisons, `Math.floor`,
`Math.round`) are exact rational arithmetic on them.  `Rat` itself is kept
out of the executable definitions only because its normalizing operations
are `@[irreducible]` and do not evaluate under `decide`; `JsNum.toRat`
interprets a value in `ℚ` and is proved to be a homomorphism for every
operation used, so theorems are still stated over `ℚ`. -/

structure JsNum where
  num : ℤ
  den : ℤ
  dpos : 0 < den

instance (n : Nat) : OfNat JsNum n := ⟨⟨(n : ℤ), 1, one_pos⟩⟩

instance : NatCast JsNum := ⟨fun n => ⟨(n : ℤ), 1, one_pos⟩⟩

instance : Add JsNum :=
  ⟨fun x y => ⟨x.num * y.den + y.num * x.den, x.den * y.den, mul_pos x.dpos y.dpos⟩⟩

instance : Sub JsNum :=
  ⟨fun x y => ⟨x.num * y.den - y.num * x.den, x.den * y.den, mul_pos x.dpos y.dpos⟩⟩

instance : Mul JsNum :=
  ⟨fun x y => ⟨x.num * y.num, x.den * y.den, mul_pos x.dpos y.dpos⟩⟩

/-- Division.  `x / 0` is modelled as 0 (as in `ℚ`); every division the
analysed code performs is guarded so that the divisor is non-zero. -/
instance : Div JsNum :=
  ⟨fun x y =>
    if h : y.num = 0 then ⟨0, 1, one_pos⟩
    else ⟨x.num * y.den * y.num.sign, x.den * (y.num.natAbs : ℤ),
      mul_pos x.dpos (by exact_mod_cast Int.natAbs_pos.mpr h)⟩⟩

/-- Scientific literals: `0.15` is `15 / 10^2`. -/
instance : OfScientific JsNum :=
  ⟨fun m b e =>
    if b then ⟨(m : ℤ), ((10 ^ e : ℕ) : ℤ), by positivity⟩
    else ⟨(m : ℤ) * ((10 ^ e : ℕ) : ℤ), 1, one_pos⟩⟩

instance : LT JsNum := ⟨fun x y => x.num * y.den < y.num * x.den⟩

instance : LE JsNum := ⟨fun x y => x.num * y.den ≤ y.num * x.den⟩

instance (x y : JsNum) : Decidable (x < y) :=
  inferInstanceAs (Decidable (x.num * y.den < y.num * x.den))

instance (x y : JsNum) : Decidable (x ≤ y) :=
  inferInstanceAs (Decidable (x.num * y.den ≤ y.num * x.den))

instance : DecidableEq JsNum := fun x y =>
  decidable_of_iff (x.num = y.num ∧ x.den = y.den)
    (by cases x; cases y; simp)

instance : Repr JsNum := ⟨fun x _ => repr (x.num, x.den)⟩

/-- JS `Math.max` of two numbers (value comparison). -/
def JsNum.max (x y : JsNum) : JsNum := if x ≤ y then y else x

/-- JS `===` on numbers: value equality of the fractions. -/
def JsNum.beq (x y : JsNum) : Bool := x.num * y.den == y.num * x.den

/-- An integer-valued JS number. -/
def JsNum.ofInt (n : ℤ) : JsNum := ⟨n, 1, one_pos⟩

/-- JS `Math.floor` (the denominator is positive, so `Int` division — Euclidean
division — is the floor). -/
def JsNum.floor (x : JsNum) : ℤ := x.num / x.den

/-- JS `Math.round`, i.e. `⌊x + 1/2⌋`. -/
def JsNum.round (x : JsNum) : ℤ := (x.num * 2 + x.den) / (x.den * 2)

/-- Interpretation in `ℚ`. -/
def JsNum.toRat (x : JsNum) : ℚ := (x.num : ℚ) / (x.den : ℚ)

theorem JsNum.den_pos_q (x : JsNum) : (0 : ℚ) < (x.den : ℚ) := by
  exact_mod_cast x.dpos

theorem JsNum.den_ne_q (x : JsNum) : ((x.den : ℚ)) ≠ 0 := x.den_pos_q.ne'

theorem JsNum.toRat_add (x y : JsNum) : (x + y).toRat = x.toRat + y.toRat := by
  show ((x.num * y.den + y.num * x.den : ℤ) : ℚ) / ((x.den * y.den : ℤ) : ℚ) = _
  rw [JsNum.toRat, JsNum.toRat]
  have hx := x.den_ne_q
  have hy := y.den_ne_q
  push_cast
  field_simp

theorem JsNum.toRat_sub (x y : JsNum) : (x - y).toRat = x.toRat - y.toRat := by
  show ((x.num * y.den - y.num * x.den : ℤ) : ℚ) / ((x.den * y.den : ℤ) : ℚ) = _
  rw [JsNum.toRat, JsNum.toRat]
  have hx := x.den_ne_q
  have hy := y.den_ne_q
  push_cast
  field_simp
  ring

theorem JsNum.toRat_mul (x y : JsNum) : (x * y).toRat = x.toRat * y.toRat := by
  show ((x.num * y.num : ℤ) : ℚ) / ((x.den * y.den : ℤ) : ℚ) = _
  rw [JsNum.toRat, JsNum.toRat]
  have hx := x.den_ne_q
  have hy := y.den_ne_q
  push_cast
  field_simp

theorem JsNum.toRat_div (x y : JsNum) : (x / y).toRat = x.toRat / y.toRat := by
  show (if h : y.num = 0 then (⟨0, 1, one_pos⟩ : JsNum)
    else ⟨x.num * y.den * y.num.sign, x.den * (y.num.natAbs : ℤ), _⟩).toRat = _
  split
  · next h =>
    simp [JsNum.toRat, h]
  · next h =>
    have hx := x.den_ne_q
    have hy := y.den_ne_q
    have hnum : ((y.num : ℚ)) ≠ 0 := by exact_mod_cast h
    rcases lt_or_gt_of_ne h with hneg | hpos
    · have hsign : y.num.sign = -1 := Int.sign_eq_neg_one_of_neg hneg
      have habs : (y.num.natAbs : ℤ) = -y.num := Int.ofNat_natAbs_of_nonpos hneg.le
      simp only [JsNum.toRat, hsign, habs]
      push_cast
      field_simp
    · have hsign : y.num.sign = 1 := Int.sign_eq_one_of_pos hpos
      have habs : (y.num.natAbs : ℤ) = y.num := Int.natAbs_of_nonneg hpos.le
      simp only [JsNum.toRat, hsign, habs]
      push_cast
      field_simp

theorem JsNum.le_iff (x y : JsNum) : x ≤ y ↔ x.toRat ≤ y.toRat := by
  show x.num * y.den ≤ y.num * x.den ↔ (x.num : ℚ) / x.den ≤ (y.num : ℚ) / y.den
  rw [div_le_div_iff₀ x.den_pos_q y.den_pos_q]
  exact_mod_cast Iff.rfl

theorem JsNum.lt_iff (x y : JsNum) : x < y ↔ x.toRat < y.toRat := by
  show x.num * y.den < y.num * x.den ↔ (x.num : ℚ) / x.den < (y.num : ℚ) / y.den
  rw [div_lt_div_iff₀ x.den_pos_q y.den_pos_q]
  exact_mod_cast Iff.rfl

theorem JsNum.toRat_eq_zero_iff (x : JsNum) : x.toRat = 0 ↔ x.num = 0 := by
  rw [JsNum.toRat, div_eq_zero_iff]
  simp [x.den_ne_q]

theorem JsNum.toRat_ofInt (n : ℤ) : (JsNum.ofInt n).toRat = (n : ℚ) := by
  simp [JsNum.ofInt, JsNum.toRat]

theorem JsNum.toRat_natCast (n : ℕ) : ((n : JsNum)).toRat = (n : ℚ) := by
  show ((n : ℤ) : ℚ) / ((1 : ℤ) : ℚ) = (n : ℚ)
  simp

theorem JsNum.toRat_ofNat (n : ℕ) :
    (no_index (OfNat.ofNat n) : JsNum).toRat = (OfNat.ofNat n : ℚ) := by
  show ((n : ℤ) : ℚ) / ((1 : ℤ) : ℚ) = _
  push_cast
  simp only [Int.cast_one, div_one]
  rfl

theorem JsNum.floor_toRat (x : JsNum) : x.floor = ⌊x.toRat⌋ := by
  have hd : x.den = ((x.den.toNat : ℕ) : ℤ) := (Int.toNat_of_nonneg x.dpos.le).symm
  have : x.toRat = (x.num : ℚ) / ((x.den.toNat : ℕ) : ℚ) := by
    rw [JsNum.toRat]
    congr 1
    exact_mod_cast congrArg (fun z : ℤ => (z : ℚ)) hd
  rw [JsNum.floor, this, Rat.floor_intCast_div_natCast, ← hd]

theorem jsnumRound_eq_round (x : JsNum) : x.round = round x.toRat := by
  have haux : x.round = (JsNum.mk (x.num * 2 + x.den) (x.den * 2)
      (by have := x.dpos; omega)).floor := rfl
  rw [haux, JsNum.floor_toRat, round_eq]
  congr 1
  show ((x.num * 2 + x.den : ℤ) : ℚ) / ((x.den * 2 : ℤ) : ℚ) = x.toRat + 1 / 2
  rw [JsNum.toRat]
  have hx := x.den_ne_q
  push_cast
  field_simp

/-- JavaScript `||` on an optional string: `undefined` and the empty string
are falsy (those are the only falsy JSON string values). -/
def jsStrOr (a : Option String) (b : String) : String :=
  match a with
  | some s => if s = "" then b else s
  | none => b

/-- JavaScript `||` on an optional number: `undefined` and `0` are falsy
(`NaN` does not arise from the JSON fields modelled here). -/
def jsNumOr (a : Option JsNum) (b : JsNum) : JsNum :=
  match a with
  | some q => if q.num = 0 then b else q
  | none => b

/-- Tests whether `p` is a prefix of `s` (JS `String.startsWith` on char lists). -/
def startsWithChars : List Char → List Char → Bool
  | [], _ => true
  | _ :: _, [] => false
  | p :: ps, c :: cs => p == c && startsWithChars ps cs

/-- JS `String.includes`: `pat` occurs contiguously inside `s`. -/
def containsSeq (pat : List Char) (s : List Char) : Bool :=
  (List.range (s.length + 1)).any (fun i => startsWithChars pat (s.drop i))

/-- The JS whitespace characters (ASCII part; the analysed sources are
ASCII): used by `\s` patterns and by `String.trim`. -/
def jsWhitespaceChar (c : Char) : Bool :=
  c == ' ' || c == '\t' || c == '\n' || c == '\r' ||
  c == Char.ofNat 11 || c == Char.ofNat 12

/-! Core `String.splitOn`, `trim`, `toLower` and `intercalate` are defined
by well-founded recursion and do not evaluate under `decide`; the versions
below are structurally recursive re-implementations over the character
lists, with JS semantics (which coincides with the Lean one on these
operations). -/

/-- JS `String.split(sep)` with a non-empty separator, over char lists; the
fuel is the input length plus one (each step consumes at least one
character). -/
def jsSplitChars (sep : List Char) : Nat → List Char → List Char → List (List Char)
  | 0, acc, s => [acc.reverse ++ s]
  | fuel + 1, acc, s =>
    if startsWithChars sep s ∧ sep ≠ [] then
      acc.reverse :: jsSplitChars sep fuel [] (s.drop sep.length)
    else
      match s with
      | [] => [acc.reverse]
      | c :: rest => jsSplitChars sep fuel (c :: acc) rest

/-- JS `String.split(sep)` (= Lean `String.splitOn` for non-empty `sep`). -/
def stringSplitOn (s sep : String) : List String :=
  (jsSplitChars sep.data (s.data.length + 1) [] s.data).map List.asString

/-- JS `String.trim` (= Lean `String.trim` on the sources at hand). -/
def stringTrim (s : String) : String :=
  (((s.data.dropWhile jsWhitespaceChar).reverse.dropWhile jsWhitespaceChar).reverse).asString

/-- JS `String.toLowerCase` (ASCII). -/
def stringToLower (s : String) : String :=
  (s.data.map Char.toLower).asString

/-- JS `Array.join(sep)` / Lean `String.intercalate`. -/
def intercalateChars (sep : List Char) : List (List Char) → List Char
  | [] => []
  | [x] => x
  | x :: xs => x ++ sep ++ intercalateChars sep xs

/-- JS `lines.join(sep)` on strings. -/
def stringIntercalate (sep : String) (l : List String) : String :=
  (intercalateChars sep.data (l.map String.data)).asString

/-- JS `Set` emulation: deduplicate keeping first occurrences, preserving
insertion order (the iteration order of a JS `Set`). -/
def jsSetOrder {α : Type} [BEq α] (l : List α) : List α :=
  l.foldl (fun acc x => if acc.contains x then acc else acc ++ [x]) []

theorem startsWithChars_length {p s : List Char}
    (h : startsWithChars p s = true) : p.length ≤ s.length := by
  induction p generalizing s with
  | nil => simp
  | cons a ps ih =>
    cases s with
    | nil => simp [startsWithChars] at h
    | cons c cs =>
      simp only [startsWithChars, Bool.and_eq_true] at h
      simpa [List.length] using Nat.succ_le_succ (ih h.2)

theorem startsWithChars_append_right {p q s : List Char}
    (h : startsWithChars (p ++ q) s = true) :
    startsWithChars q (s.drop p.length) = true := by
  induction p generalizing s with
  | nil => simpa using h
  | cons a ps ih =>
    cases s with
    | nil => simp [startsWithChars] at h
    | cons c cs =>
      simp only [List.cons_append, startsWithChars, Bool.and_eq_true] at h
      simpa using ih h.2

theorem startsWithChars_append_left {p q s : List Char}
    (h : startsWithChars (p ++ q) s = true) : startsWithChars p s = true := by
  induction p generalizing s with
  | nil => simp [startsWithChars]
  | cons a ps ih =>
    cases s with
    | nil => simp [startsWithChars] at h
    | cons c cs =>
      simp only [List.cons_append, startsWithChars, Bool.and_eq_true] at h
      simp [startsWithChars, h.1, ih h.2]

/-- A contiguous occurrence of `p ++ q ++ r` contains an occurrence of `q`:
used to transfer `includes` facts between the webpack marker substrings. -/
theorem containsSeq_middle (p q r s : List Char)
    (h : containsSeq (p ++ q ++ r) s = true) : containsSeq q s = true := by
  simp only [containsSeq, List.any_eq_true, List.mem_range] at h ⊢
  obtain ⟨i, hi, hsw⟩ := h
  have h2 : startsWithChars (q ++ r) ((s.drop i).drop p.length) = true :=
    startsWithChars_append_right (p := p) (q := q ++ r)
      (by simpa [List.append_assoc] using hsw)
  have h3 : startsWithChars q ((s.drop i).drop p.length) = true :=
    startsWithChars_append_left h2
  have hlen : (p ++ q ++ r).length ≤ (s.drop i).length := startsWithChars_length hsw
  have hlen' : p.length + (q.length + r.length) ≤ s.length - i := by
    simpa [List.length_append, List.length_drop] using hlen
  refine ⟨i + p.length, ?_, ?_⟩
  · omega
  · have hdd : (s.drop i).drop p.length = s.drop (i + p.length) := by
      rw [List.drop_drop]
    rw [← hdd]; exact h3

/-! ### A small regular-expression engine

Pattern syntax covering the constructs used by the source's regexes:
single-character classes, concatenation, alternation (left-to-right, as in
JS), greedy `*`/`?`, and numbered capture groups.  `+` is expressed as
`x · x*`. -/

inductive RE where
  | eps : RE
  | chr (p : Char → Bool) : RE
  | seq (a b : RE) : RE
  | alt (a b : RE) : RE
  | opt (a : RE) : RE
  | star (a : RE) : RE
  | group (n : Nat) (a : RE) : RE

/-- Captures recorded along the successful match path (latest first). -/
abbrev Caps := List (Nat × String)

/-- Backtracking matcher in continuation style.  The first solution found is
the one JS backtracking produces: `alt` tries the left branch first, `opt`
and `star` try to consume first (greedy).  `star` only iterates on progress
(the source's patterns cannot produce empty star iterations, matching JS
`exec` behaviour on them).  `fuel` bounds the recursion depth and makes the
definition structurally recursive, hence kernel-reducible. -/
def reRun : Nat → RE → List Char → Caps →
    (List Char → Caps → Option (List Char × Caps)) → Option (List Char × Caps)
  | 0, _, _, _, _ => none
  | fuel + 1, re, s, caps, k =>
    match re with
    | .eps => k s caps
    | .chr p =>
      match s with
      | [] => none
      | c :: rest => if p c then k rest caps else none
    | .seq a b => reRun fuel a s caps (fun s' c' => reRun fuel b s' c' k)
    | .alt a b =>
      match reRun fuel a s caps k with
      | some r => some r
      | none => reRun fuel b s caps k
    | .opt a =>
      match reRun fuel a s caps k with
      | some r => some r
      | none => k s caps
    | .star a =>
      match reRun fuel a s caps
          (fun s' c' =>
            if s'.length < s.length then reRun fuel (.star a) s' c' k else none) with
      | some r => some r
      | none => k s caps
    | .group n a =>
      reRun fuel a s caps
        (fun s' c' => k s' ((n, ((s.take (s.length - s'.length)).asString)) :: c'))

/-- Attempt a match anchored at the head of `s`; returns consumed length and
captures of the (greedy, JS-order) first solution. -/
def matchAt (re : RE) (s : List Char) : Option (Nat × Caps) :=
  match reRun (2 * s.length + 200) re s [] (fun rem caps => some (rem, caps)) with
  | some (rem, caps) => some (s.length - rem.length, caps)
  | none => none

/-- One recorded match: start index, length, captures. -/
abbrev REMatch := Nat × Nat × Caps

/-- Global scan from successive positions, as `RegExp.exec` in a loop with
the `g` flag: find the leftmost match, record it, resume after it. -/
def execAllFrom : Nat → RE → List Char → Nat → List REMatch
  | 0, _, _, _ => []
  | fuel + 1, re, s, idx =>
    match matchAt re s with
    | some (len, caps) =>
      if len = 0 then
        -- unreachable for the source's patterns (no empty matches)
        match s with
        | [] => []
        | _ :: rest => (idx, 0, caps) :: execAllFrom fuel re rest (idx + 1)
      else (idx, len, caps) :: execAllFrom fuel re (s.drop len) (idx + len)
    | none =>
      match s with
      | [] => []
      | _ :: rest => execAllFrom fuel re rest (idx + 1)

/-- All matches of `re` over `s` (start, length, captures). -/
def execAll (re : RE) (s : String) : List REMatch :=
  execAllFrom (s.data.length + 1) re s.data 0

/-- JS `String.match(re)!.length` for a global regex (0 when there is no
match, as the source folds `null` to a 0 contribution). -/
def countMatches (re : RE) (s : String) : Nat :=
  (execAll re s).length

/-- The full text of a recorded match. -/
def matchText (s : String) (m : REMatch) : String :=
  ((s.data.drop m.1).take m.2.1).asString

/-- Captured group `n` of a match; `none` models an `undefined` capture
(optional group not taken). -/
def capOf (m : REMatch) (n : Nat) : Option String :=
  (m.2.2.find? (fun p => p.1 == n)).map Prod.snd

/-! ### Pattern constructors (the JS regex literals of the source) -/

/-- Concatenation of a pattern list. -/
def RE.cat (l : List RE) : RE := l.foldr .seq .eps

/-- A string literal pattern (each char matched exactly). -/
def lit (str : String) : RE := .cat (str.data.map (fun c => .chr (fun x => x == c)))

/-- Character class `[...]`. -/
def oneOf (cs : List Char) : RE := .chr (fun c => cs.contains c)

/-- Negated character class `[^...]`. -/
def noneOf (cs : List Char) : RE := .chr (fun c => !(cs.contains c))

/-- Pattern `x+` as `x · x*`. -/
def rePlus (r : RE) : RE := .seq r (.star r)

/-- JS `\s` (the ASCII part; the sources under analysis are ASCII). -/
def jsSpaceChar (c : Char) : Bool := jsWhitespaceChar c

/-- Pattern `\s*`. -/
def ws0 : RE := .star (.chr jsSpaceChar)

/-- Pattern `\s+`. -/
def ws1 : RE := rePlus (.chr jsSpaceChar)

/-- JS `\w` = `[A-Za-z0-9_]`. -/
def wordCharB (c : Char) : Bool := c.isAlpha || c.isDigit || c == '_'

/-- Pattern `\w+`. -/
def word1 : RE := rePlus (.chr wordCharB)

/-- The three JS string-quote characters `'`, `"`, backquote. -/
def quoteChars : List Char := [Char.ofNat 39, Char.ofNat 34, Char.ofNat 96]

/-- Closing brace, written by code point to keep it out of string literals. -/
def closeBraceChar : Char := Char.ofNat 125

/-- Opening brace. -/
def openBraceChar : Char := Char.ofNat 123

/-- The string consisting of one closing brace. -/
def closeBraceStr : String := String.mk [closeBraceChar]

/-- The string consisting of one opening brace. -/
def openBraceStr : String := String.mk [openBraceChar]

/-! ### Data model (src/types/index.ts) -/

/-- Source `OptimizationInsight.type`. -/
inductive InsightKind where
  | warning | info | success | error
deriving DecidableEq, Repr

/-- Source `OptimizationInsight.impact`. -/
inductive ImpactLevel where
  | low | medium | high
deriving DecidableEq, Repr

/-- Source `OptimizationInsight.category` (`code-splitting`/`tree-shaking` written
as identifiers). -/
inductive InsightCategory where
  | dependency | codeSplitting | treeShaking | duplicates | performance
deriving DecidableEq, Repr

/-- Source `OptimizationInsight`.  The `description` field of the source is a
presentation string interpolating `formatSize` (which uses `Math.log`) and
`toFixed` output; no claim concerns it and it is not modelled. -/
structure OptimizationInsight where
  id : String
  type : InsightKind
  title : String
  impact : ImpactLevel
  recommendation : String
  estimatedSavings : Option JsNum := none
  category : InsightCategory
deriving DecidableEq, Repr

/-- Source `JavaScriptAnalysis.fileType`. -/
inductive JsFileType where
  | vanilla | bundle | module | unknown
deriving DecidableEq, Repr

/-- Source `FunctionInfo.type`. -/
inductive FnKind where
  | function | arrow | method | async
deriving DecidableEq, Repr

/-- Source `FunctionInfo`. -/
structure FunctionInfo where
  name : String
  type : FnKind
  lineStart : Nat
  lineEnd : Nat
  size : Nat
  complexity : Nat
  parameters : List String
deriving DecidableEq, Repr

/-- Source `ClassInfo`.  `extends` is a Lean keyword, so that field is named
`extendsCls`.  The source pushes `match[1]` where `match` is the result of
`String.match` with a global regex — an array of *full match strings* — so
the pushed value is the second full match on the line, usually `undefined`;
the fields are therefore lists of optional strings (a JS quirk preserved
as-is). -/
structure ClassInfo where
  name : String
  lineStart : Nat
  lineEnd : Nat
  size : Nat
  methods : List (Option String)
  properties : List (Option String)
  extendsCls : Option String
  implements : List String
deriving DecidableEq, Repr

/-- Source `ImportInfo.type`. -/
inductive ImportKind where
  | es6 | commonjs | dynamic
deriving DecidableEq, Repr

/-- Source `ImportInfo`. -/
structure ImportInfo where
  source : String
  type : ImportKind
  items : List String
  line : Nat
deriving DecidableEq, Repr

/-- Source `ExportInfo.type`. -/
inductive ExportKind where
  | named | default | all
deriving DecidableEq, Repr

/-- Source `ExportInfo`. -/
structure ExportInfo where
  type : ExportKind
  items : List String
  line : Nat
deriving DecidableEq, Repr

/-- Source `LibraryUsage` (`patterns` holds the regex source strings). -/
structure LibraryUsage where
  name : String
  confidence : JsNum
  patterns : List String
  usageCount : Nat
deriving DecidableEq, Repr

/-- Source `CodeMetrics`.  The two averages are `Math.round`ed numbers. -/
structure CodeMetrics where
  totalLines : Nat
  codeLines : Nat
  commentLines : Nat
  emptyLines : Nat
  functionCount : Nat
  classCount : Nat
  importCount : Nat
  exportCount : Nat
  averageFunctionSize : JsNum
  averageClassSize : JsNum
  cyclomaticComplexity : Nat
deriving DecidableEq, Repr

/-- Source `JavaScriptAnalysis`. -/
structure JavaScriptAnalysis where
  fileType : JsFileType
  confidence : JsNum
  functions : List FunctionInfo
  classes : List ClassInfo
  imports : List ImportInfo
  exports : List ExportInfo
  dependencies : List String
  libraries : List LibraryUsage
  codeMetrics : CodeMetrics
  optimizationOpportunities : List String
  insights : List OptimizationInsight
deriving DecidableEq, Repr

/-! ### Lexical JavaScript Analyzer (class `JavaScriptAnalyzer`) -/

/-- Source `createEmptyAnalysis`. -/
def createEmptyAnalysis : JavaScriptAnalysis where
  fileType := .unknown
  confidence := 0
  functions := []
  classes := []
  imports := []
  exports := []
  dependencies := []
  libraries := []
  codeMetrics :=
    { totalLines := 0, codeLines := 0, commentLines := 0, emptyLines := 0,
      functionCount := 0, classCount := 0, importCount := 0, exportCount := 0,
      averageFunctionSize := 0, averageClassSize := 0, cyclomaticComplexity := 0 }
  optimizationOpportunities := []
  insights := []

/-- Source `detectWebpackIndicators`: five literal patterns, 0.2 per match. -/
def detectWebpackIndicators (content : String) : JsNum :=
  [lit "webpack_require", lit "__webpack_require__", lit "webpackJsonp",
   lit "webpackChunk", lit "__webpack_modules__"].foldl
    (fun score p => score + (countMatches p content : JsNum) * 0.2) 0

/-- Source `detectBundleIndicators`: `\(function\s*\(`, `UMD|AMD|CommonJS`,
`define\s*\(`, `module\.exports`, 0.15 per match. -/
def detectBundleIndicators (content : String) : JsNum :=
  [RE.cat [lit "(function", ws0, lit "("],
   RE.alt (lit "UMD") (.alt (lit "AMD") (lit "CommonJS")),
   RE.cat [lit "define", ws0, lit "("],
   lit "module.exports"].foldl
    (fun score p => score + (countMatches p content : JsNum) * 0.15) 0

/-- Source `detectModuleIndicators`: `import\s+`, `export\s+`, `from\s+['"\x60]`,
0.1 per match. -/
def detectModuleIndicators (content : String) : JsNum :=
  [RE.cat [lit "import", ws1],
   RE.cat [lit "export", ws1],
   RE.cat [lit "from", ws1, oneOf quoteChars]].foldl
    (fun score p => score + (countMatches p content : JsNum) * 0.1) 0

/-- Source `detectVanillaIndicators`: five declaration patterns, 0.05 per match. -/
def detectVanillaIndicators (content : String) : JsNum :=
  [RE.cat [lit "function", ws1, word1, ws0, lit "("],
   RE.cat [lit "const", ws1, word1, ws0, lit "="],
   RE.cat [lit "let", ws1, word1, ws0, lit "="],
   RE.cat [lit "var", ws1, word1, ws0, lit "="],
   RE.cat [lit "class", ws1, word1]].foldl
    (fun score p => score + (countMatches p content : JsNum) * 0.05) 0

/-- Source `detectFileType`: scale the four indicator families by 0.4/0.3/0.2/0.1,
pick the first family (in object-key order webpack, bundle, module, vanilla)
attaining the maximum, map `webpack` to `bundle`, and set
`confidence = Math.round(maxScore * 100)` (no upper clamp). -/
def detectFileType (content : String) : JsFileType × JsNum :=
  let scoreW : JsNum := detectWebpackIndicators content * 0.4
  let scoreB : JsNum := detectBundleIndicators content * 0.3
  let scoreM : JsNum := detectModuleIndicators content * 0.2
  let scoreV : JsNum := detectVanillaIndicators content * 0.1
  let maxScore := JsNum.max scoreW (JsNum.max scoreB (JsNum.max scoreM scoreV))
  let ft : JsFileType :=                      -- `===` finds the first key
    if JsNum.beq scoreW maxScore then .bundle -- attaining the maximum;
    else if JsNum.beq scoreB maxScore then .bundle -- 'webpack' maps to 'bundle'
    else if JsNum.beq scoreM maxScore then .module
    else .vanilla
  (ft, JsNum.ofInt (JsNum.round (maxScore * 100)))

/-- Source `getLineNumber(index)`: 1-based line of a character offset. -/
def getLineNumber (content : String) (index : Nat) : Nat :=
  ((content.data.take index).count '\n') + 1

/-- Source `getLineEnd(startLine)`: first line at 0-based index ≥ `startLine`
whose trimmed content is exactly a closing brace; returns its 1-based
number, or the line count when none exists. -/
def getLineEnd (lines : List String) (startLine : Nat) : Nat :=
  match (lines.drop startLine).findIdx?
      (fun l => containsSeq closeBraceStr.data l.data && stringTrim l == closeBraceStr) with
  | some j => startLine + j + 1
  | none => lines.length

/-- Source `calculateFunctionSize`: length of `lines.slice(start-1, end)` joined
with newlines. -/
def calculateFunctionSize (lines : List String) (startLine endLine : Nat) : Nat :=
  (stringIntercalate "\n" ((lines.drop (startLine - 1)).take (endLine - (startLine - 1)))).length

/-- The six control-flow patterns of `calculateComplexity`. -/
def complexityPatterns : List RE :=
  [RE.cat [lit "if", ws0, lit "("],
   RE.cat [lit "else", ws0, lit "if", ws0, lit "("],
   RE.cat [lit "for", ws0, lit "("],
   RE.cat [lit "while", ws0, lit "("],
   RE.cat [lit "switch", ws0, lit "("],
   RE.cat [lit "?", ws0, rePlus (noneOf [':']), lit ":"]]

/-- Source `calculateComplexity`: 1 plus one per control-flow match in the line
range. -/
def calculateComplexity (lines : List String) (startLine endLine : Nat) : Nat :=
  let functionContent :=
    stringIntercalate "\n" ((lines.drop (startLine - 1)).take (endLine - (startLine - 1)))
  complexityPatterns.foldl (fun cx p => cx + countMatches p functionContent) 1

/-- Parameter list handling shared by the three function passes:
`split(',')`, trim, drop empties. -/
def paramSplit (s : String) : List String :=
  ((stringSplitOn s ",").map (fun p => stringTrim p)).filter (fun p => p ≠ "")

/-- One function-extraction pass: each match yields a `FunctionInfo` from
capture 1 (name) and capture 2 (parameters). -/
def extractFns (content : String) (lines : List String) (kind : FnKind) (pat : RE) :
    List FunctionInfo :=
  (execAll pat content).map (fun m =>
    let lineStart := getLineNumber content m.1
    let lineEnd := getLineEnd lines lineStart
    { name := (capOf m 1).getD ""
      type := kind
      lineStart := lineStart
      lineEnd := lineEnd
      size := calculateFunctionSize lines lineStart lineEnd
      complexity := calculateComplexity lines lineStart lineEnd
      parameters := paramSplit ((capOf m 2).getD "") })

/-- Source `/function\s+(\w+)\s*\(([^)]*)\)/g` -/
def functionRegex : RE :=
  .cat [lit "function", ws1, .group 1 word1, ws0, lit "(",
        .group 2 (.star (noneOf [')'])), lit ")"]

/-- Source `/const\s+(\w+)\s*=\s*\(([^)]*)\)\s*=>/g` -/
def arrowFunctionRegex : RE :=
  .cat [lit "const", ws1, .group 1 word1, ws0, lit "=", ws0, lit "(",
        .group 2 (.star (noneOf [')'])), lit ")", ws0, lit "=>"]

/-- Source `/async\s+function\s+(\w+)\s*\(([^)]*)\)/g` -/
def asyncFunctionRegex : RE :=
  .cat [lit "async", ws1, lit "function", ws1, .group 1 word1, ws0, lit "(",
        .group 2 (.star (noneOf [')'])), lit ")"]

/-- Source `analyzeFunctions`: the three passes, appended in source order. -/
def analyzeFunctions (content : String) (lines : List String) : List FunctionInfo :=
  extractFns content lines .function functionRegex ++
  extractFns content lines .arrow arrowFunctionRegex ++
  extractFns content lines .async asyncFunctionRegex

/-- Source `/class\s+(\w+)(?:\s+extends\s+(\w+))?(?:\s+implements\s+([^{]+))?\s*{/g` -/
def classRegex : RE :=
  .cat [lit "class", ws1, .group 1 word1,
        .opt (.cat [ws1, lit "extends", ws1, .group 2 word1]),
        .opt (.cat [ws1, lit "implements", ws1,
                    .group 3 (rePlus (noneOf [openBraceChar]))]),
        ws0, .chr (fun c => c == openBraceChar)]

/-- The three method-shaped line patterns of `extractClassMethods`. -/
def classMethodPatterns : List RE :=
  [.cat [.group 1 word1, ws0, lit "(", .star (noneOf [')']), lit ")", ws0,
         .chr (fun c => c == openBraceChar)],
   .cat [.group 1 word1, ws0, lit "=", ws0, lit "(", .star (noneOf [')']),
         lit ")", ws0, lit "=>"],
   .cat [lit "async", ws1, .group 1 word1, ws0, lit "(", .star (noneOf [')']),
         lit ")"]]

/-- The three property-shaped line patterns of `extractClassProperties`. -/
def classPropertyPatterns : List RE :=
  [.cat [.group 1 word1, ws0, oneOf [':', '=']],
   .cat [lit "get", ws1, .group 1 word1, ws0, lit "()"],
   .cat [lit "set", ws1, .group 1 word1, ws0, lit "("]]

/-- Source `extractClassMethods`/`extractClassProperties` share this shape: per
line, per pattern, `line.match(pattern)` with a global regex gives the list
of full match strings, and the source pushes its element 1 when the list is
non-empty. -/
def extractClassMembers (patterns : List RE) (classContent : List String) :
    List (Option String) :=
  classContent.foldl (fun acc line =>
    patterns.foldl (fun acc2 pat =>
      match (execAll pat line).map (matchText line) with
      | [] => acc2
      | ms => acc2 ++ [ms.get? 1]) acc) []

/-- Source `analyzeClasses`. -/
def analyzeClasses (content : String) (lines : List String) : List ClassInfo :=
  (execAll classRegex content).map (fun m =>
    let lineStart := getLineNumber content m.1
    let lineEnd := getLineEnd lines lineStart
    let classContent := (lines.drop (lineStart - 1)).take (lineEnd - (lineStart - 1))
    { name := (capOf m 1).getD ""
      lineStart := lineStart
      lineEnd := lineEnd
      size := calculateFunctionSize lines lineStart lineEnd
      methods := extractClassMembers classMethodPatterns classContent
      properties := extractClassMembers classPropertyPatterns classContent
      extendsCls := capOf m 2
      implements := match capOf m 3 with
        | some s => (stringSplitOn s ",").map (fun i => stringTrim i)
        | none => [] })

/-- Source `/import\s+(?:{([^}]+)}\s+from\s+)?['"\x60]([^'"\x60]+)['"\x60]/g` -/
def importRegex : RE :=
  .cat [lit "import", ws1,
        .opt (.cat [.chr (fun c => c == openBraceChar),
                    .group 1 (rePlus (noneOf [closeBraceChar])),
                    .chr (fun c => c == closeBraceChar),
                    ws1, lit "from", ws1]),
        oneOf quoteChars, .group 2 (rePlus (noneOf quoteChars)), oneOf quoteChars]

/-- Source `/require\s*\(\s*['"\x60]([^'"\x60]+)['"\x60]\s*\)/g` -/
def requireRegex : RE :=
  .cat [lit "require", ws0, lit "(", ws0, oneOf quoteChars,
        .group 1 (rePlus (noneOf quoteChars)), oneOf quoteChars, ws0, lit ")"]

/-- Source `/import\s*\(\s*['"\x60]([^'"\x60]+)['"\x60]\s*\)/g` -/
def dynamicImportRegex : RE :=
  .cat [lit "import", ws0, lit "(", ws0, oneOf quoteChars,
        .group 1 (rePlus (noneOf quoteChars)), oneOf quoteChars, ws0, lit ")"]

/-- Source `analyzeImports`: the ES6, CommonJS and dynamic passes in source order;
every matched source string is also appended to `dependencies`
(intentionally without deduplication).  Returns (imports, dependencies). -/
def analyzeImports (content : String) : List ImportInfo × List String :=
  let es6 := (execAll importRegex content).map (fun m =>
    ({ source := (capOf m 2).getD ""
       type := ImportKind.es6
       items := match capOf m 1 with
         | some s => (stringSplitOn s ",").map (fun i => stringTrim i)
         | none => ["default"]
       line := getLineNumber content m.1 }, (capOf m 2).getD ""))
  let cjs := (execAll requireRegex content).map (fun m =>
    ({ source := (capOf m 1).getD ""
       type := ImportKind.commonjs
       items := ["default"]
       line := getLineNumber content m.1 }, (capOf m 1).getD ""))
  let dyn := (execAll dynamicImportRegex content).map (fun m =>
    ({ source := (capOf m 1).getD ""
       type := ImportKind.dynamic
       items := ["dynamic"]
       line := getLineNumber content m.1 }, (capOf m 1).getD ""))
  ((es6 ++ cjs ++ dyn).map Prod.fst, (es6 ++ cjs ++ dyn).map Prod.snd)

/-- Source `/export\s+(?:const|let|var|function|class)\s+(\w+)/g` -/
def namedExportRegex : RE :=
  .cat [lit "export", ws1,
        .alt (lit "const") (.alt (lit "let") (.alt (lit "var")
          (.alt (lit "function") (lit "class")))),
        ws1, .group 1 word1]

/-- Source `/export\s+default\s+(\w+)/g` -/
def defaultExportRegex : RE :=
  .cat [lit "export", ws1, lit "default", ws1, .group 1 word1]

/-- Source `/export\s+\*\s+from\s+['"\x60]([^'"\x60]+)['"\x60]/g` -/
def exportAllRegex : RE :=
  .cat [lit "export", ws1, lit "*", ws1, lit "from", ws1, oneOf quoteChars,
        .group 1 (rePlus (noneOf quoteChars)), oneOf quoteChars]

/-- Source `analyzeExports`: named, default and re-export-all passes in order. -/
def analyzeExports (content : String) : List ExportInfo :=
  (execAll namedExportRegex content).map (fun m =>
    { type := ExportKind.named, items := [(capOf m 1).getD ""],
      line := getLineNumber content m.1 }) ++
  (execAll defaultExportRegex content).map (fun m =>
    { type := ExportKind.default, items := [(capOf m 1).getD ""],
      line := getLineNumber content m.1 }) ++
  (execAll exportAllRegex content).map (fun m =>
    { type := ExportKind.all, items := [(capOf m 1).getD ""],
      line := getLineNumber content m.1 })

/-- The fixed library table of `detectLibraries`: name, patterns (with
their JS regex source strings), fixed confidence. -/
def libraryPatterns : List (String × List (RE × String) × JsNum) :=
  [("jQuery", [(lit "$(", "\\$\\("), (lit "jQuery(", "jQuery\\(")], 0.9),
   ("Lodash", [(.cat [lit "_.", rePlus (.chr Char.isAlpha)], "_\\.[a-zA-Z]+"),
               (lit "lodash", "lodash")], 0.8),
   ("Moment.js", [(lit "moment(", "moment\\("), (lit "moment.", "moment\\.")], 0.9),
   ("Axios", [(lit "axios.", "axios\\."), (lit "axios(", "axios\\(")], 0.8),
   ("React", [(lit "React.", "React\\."), (lit "useState", "useState"),
              (lit "useEffect", "useEffect")], 0.9),
   ("Vue", [(lit "Vue.", "Vue\\."), (lit "createApp", "createApp"),
            (lit "ref(", "ref\\(")], 0.9),
   ("Angular", [(lit "angular.", "angular\\."), (lit "@Component", "@Component"),
                (lit "@Injectable", "@Injectable")], 0.9),
   ("Express", [(lit "express(", "express\\("), (lit "app.", "app\\."),
                (lit "router.", "router\\.")], 0.8),
   ("Node.js", [(lit "require(", "require\\("),
                (lit "module.exports", "module\\.exports"),
                (lit "process.", "process\\.")], 0.7)]

/-- Source `detectLibraries`: a library is reported when its total match count is
positive. -/
def detectLibraries (content : String) : List LibraryUsage :=
  libraryPatterns.filterMap (fun lib =>
    let usageCount := lib.2.1.foldl (fun n p => n + countMatches p.1 content) 0
    if usageCount > 0 then
      some { name := lib.1, confidence := lib.2.2,
             patterns := lib.2.1.map Prod.snd, usageCount := usageCount }
    else none)

/-- Source `calculateMetrics`, reading the accumulated analysis record. -/
def calculateMetrics (lines : List String) (a : JavaScriptAnalysis) : CodeMetrics :=
  { totalLines := lines.length
    codeLines := (lines.filter (fun line =>
      stringTrim line ≠ "" ∧ ¬ startsWithChars "//".data (stringTrim line).data ∧
      ¬ startsWithChars "/*".data (stringTrim line).data)).length
    commentLines := (lines.filter (fun line =>
      startsWithChars "//".data (stringTrim line).data ∨
      startsWithChars "/*".data (stringTrim line).data)).length
    emptyLines := (lines.filter (fun line => stringTrim line = "")).length
    functionCount := a.functions.length
    classCount := a.classes.length
    importCount := a.imports.length
    exportCount := a.exports.length
    averageFunctionSize :=
      if a.functions.length > 0 then
        JsNum.ofInt (JsNum.round
          ((a.functions.foldl (fun sum f => sum + (f.size : JsNum)) 0) /
            (a.functions.length : JsNum)))
      else 0
    averageClassSize :=
      if a.classes.length > 0 then
        JsNum.ofInt (JsNum.round
          ((a.classes.foldl (fun sum c => sum + (c.size : JsNum)) 0) /
            (a.classes.length : JsNum)))
      else 0
    cyclomaticComplexity := a.functions.foldl (fun total f => total + f.complexity) 0 }

/-- The analyzer's `generateInsights`: fixed-threshold opportunity strings;
the `insights` list is reset to `[]` and never filled. -/
def generateJsInsights (a : JavaScriptAnalysis) : JavaScriptAnalysis :=
  let opps0 : List String := []
  let largeFunctions := a.functions.filter (fun f => f.size > 50)
  let opps1 := if largeFunctions.length > 0 then
      opps0 ++ [toString largeFunctions.length ++
        " large functions detected. Consider breaking them down for better maintainability."]
    else opps0
  let opps2 := if a.classes.length > 0 then
      let largeClasses := a.classes.filter (fun c => c.size > 100)
      if largeClasses.length > 0 then
        opps1 ++ [toString largeClasses.length ++
          " large classes detected. Consider splitting into smaller, focused classes."]
      else opps1
    else opps1
  let opps3 := if a.imports.length > 10 then
      opps2 ++ ["High number of imports detected. Consider bundling or using barrel exports."]
    else opps2
  let opps4 := a.libraries.foldl (fun acc library =>
      if library.usageCount > 20 then
        acc ++ ["Heavy usage of " ++ library.name ++
          " detected. Consider code splitting or lazy loading."]
      else acc) opps3
  let opps5 := if a.codeMetrics.cyclomaticComplexity > 10 then
      opps4 ++ ["High cyclomatic complexity detected. Consider simplifying control flow."]
    else opps4
  { a with optimizationOpportunities := opps5, insights := [] }

/-- The instance state of class `JavaScriptAnalyzer`: `content`, `lines`
and the working `analysis` record. -/
structure JSAnalyzerState where
  content : String
  lines : List String
  analysis : JavaScriptAnalysis

/-- The state of a freshly constructed `JavaScriptAnalyzer`. -/
def newJSAnalyzer : JSAnalyzerState :=
  { content := "", lines := [], analysis := createEmptyAnalysis }

/-- Source `JavaScriptAnalyzer.analyzeFile`: overwrites `this.content` and
`this.lines` with the argument, resets `this.analysis`, then runs the eight
phases in source order, each updating the analysis record.  The input state
is received (as `this` is) but every field of it is overwritten before any
read — which is what the purity claim is about. -/
def analyzeFile (_st : JSAnalyzerState) (content : String) :
    JSAnalyzerState × JavaScriptAnalysis :=
  let lines := stringSplitOn content "\n"
  let a0 := createEmptyAnalysis
  let ftc := detectFileType content
  let a1 := { a0 with fileType := ftc.1, confidence := ftc.2 }
  let a2 := { a1 with functions := analyzeFunctions content lines }
  let a3 := { a2 with classes := analyzeClasses content lines }
  let imp := analyzeImports content
  let a4 := { a3 with imports := imp.1, dependencies := a3.dependencies ++ imp.2 }
  let a5 := { a4 with exports := analyzeExports content }
  let a6 := { a5 with libraries := detectLibraries content }
  let a7 := { a6 with codeMetrics := calculateMetrics lines a6 }
  let a8 := generateJsInsights a7
  ({ content := content, lines := lines, analysis := a8 }, a8)

/-! ### Bundle Ingestion Engine (class `BundleAnalyzer`) -/

/-- Source `BundleModule.type`. -/
inductive ModuleType where
  | js | css | json | map | other
deriving DecidableEq, Repr

/-- Source `BundleModule` (src/types/index.ts). -/
structure BundleModule where
  id : String
  name : String
  size : JsNum
  gzipSize : Option JsNum := none
  path : List String
  dependencies : List String
  isExternal : Bool
  type : ModuleType
  javascriptAnalysis : Option JavaScriptAnalysis := none
deriving DecidableEq, Repr

/-- Source `ChunkData` (src/types/index.ts). -/
structure ChunkData where
  id : String
  name : String
  size : JsNum
  gzipSize : JsNum
  modules : List String
  entry : Bool
deriving DecidableEq, Repr

/-- Source `BundleData.metadata`.  `analyzedAt` is `new Date().toISOString()` —
wall-clock output outside the embedding — and is omitted. -/
structure BundleMetadata where
  fileCount : Nat
  fileTypes : List String
deriving DecidableEq, Repr

/-- Source `BundleData` (src/types/index.ts). -/
structure BundleData where
  totalSize : JsNum
  totalGzipSize : JsNum
  modules : List BundleModule
  chunks : List ChunkData
  insights : List OptimizationInsight
  metadata : BundleMetadata
deriving DecidableEq, Repr

/-- One entry of a webpack-stats `modules` array, restricted to the fields
`processWebpackModules` reads.  `none` = the field is absent or holds a
falsy value (`JSON` string fields are falsy exactly when empty, which
`jsStrOr` re-checks); `gzipSize` is stored verbatim, so `some 0` is a
present, zero-valued field. -/
structure JWebpackModule where
  id : Option String := none
  name : Option String := none
  identifier : Option String := none
  size : Option JsNum := none
  gzipSize : Option JsNum := none
  dependencies : Option (List String) := none
  external : Option Bool := none
deriving DecidableEq, Repr

/-- One entry of a webpack-stats `chunks` array, restricted to the fields
`processWebpackChunks` reads. -/
structure JChunk where
  id : Option String := none
  name : Option String := none
  size : Option JsNum := none
  gzipSize : Option JsNum := none
  modules : Option (List String) := none
  entry : Option Bool := none
deriving DecidableEq, Repr

/-- A parsed JSON document, restricted to the three members the ingestion
code tests (`data.modules`, `data.chunks`, `data.sources`); `some []` is a
present (truthy) empty array. -/
structure JsonData where
  modules : Option (List JWebpackModule) := none
  chunks : Option (List JChunk) := none
  sources : Option (List String) := none
deriving DecidableEq, Repr

/-- An input file descriptor.  `size` is `File.size`; `textOk` tells
whether `file.text()` resolves (a rejection is caught by `processFile`);
`json` is the `JSON.parse` oracle for the text (`none` = parse throws). -/
structure InputFile where
  name : String
  size : JsNum
  textOk : Bool := true
  text : String := ""
  json : Option JsonData := none
deriving DecidableEq, Repr

/-- Source `file.name.split('.').pop()?.toLowerCase()` — the extension used for
dispatch (split of a non-empty separator always yields a non-empty array,
so `pop` is never `undefined` modulo the empty-string element). -/
def fileExtension (name : String) : String :=
  stringToLower ((stringSplitOn name ".").getLastD "")

/-- Source `getFileType`: extension switch on a possibly-absent module name. -/
def getFileType (filename : Option String) : ModuleType :=
  match filename with
  | none => .other
  | some fn =>
    if fn = "" then .other    -- the empty string is falsy in `if (!filename)`
    else
      let ext := fileExtension fn
      if ext = "js" ∨ ext = "jsx" ∨ ext = "ts" ∨ ext = "tsx" then .js
      else if ext = "css" ∨ ext = "scss" ∨ ext = "sass" ∨ ext = "less" then .css
      else if ext = "json" then .json
      else if ext = "map" then .map
      else .other

/-- Source `parseModulePath`. -/
def parseModulePath (moduleName : Option String) : List String :=
  match moduleName with
  | none => ["unknown"]
  | some n =>
    if n = "" then ["unknown"]
    else if containsSeq "node_modules".data n.data then
      let parts := stringSplitOn n "node_modules/"
      if parts.length > 1 then
        "node_modules" :: stringSplitOn (parts.getD 1 "") "/"
      else stringSplitOn n "/"
    else stringSplitOn n "/"

/-- Source `estimateSourceSize`: two bytes per character of the source path. -/
def estimateSourceSize (source : String) : JsNum :=
  (source.length : JsNum) * 2

/-- Source `processWebpackModules`: map each stats entry to a `BundleModule`. -/
def processWebpackModules (webpackModules : List JWebpackModule) : List BundleModule :=
  webpackModules.enum.map (fun p =>
    let webpackModule := p.2
    let index := p.1
    { id := jsStrOr webpackModule.id ("module-" ++ toString index)
      name := jsStrOr webpackModule.name
        (jsStrOr webpackModule.identifier ("Module " ++ toString index))
      size := jsNumOr webpackModule.size 0
      gzipSize := webpackModule.gzipSize
      path := parseModulePath
        (match webpackModule.name with
         | some nm => if nm = "" then webpackModule.identifier else some nm
         | none => webpackModule.identifier)
      dependencies := webpackModule.dependencies.getD []
      isExternal := webpackModule.external.getD false
      type := getFileType
        (match webpackModule.name with
         | some nm => if nm = "" then webpackModule.identifier else some nm
         | none => webpackModule.identifier) })

/-- Source `processWebpackChunks`.  When `gzipSize` is falsy and `size` is absent,
`chunk.size * 0.3` is `NaN` in JS; that corner is modelled as `0 * 0.3` (no
claim reaches it). -/
def processWebpackChunks (webpackChunks : List JChunk) : List ChunkData :=
  webpackChunks.enum.map (fun p =>
    let chunk := p.2
    let index := p.1
    { id := jsStrOr chunk.id ("chunk-" ++ toString index)
      name := jsStrOr chunk.name ("Chunk " ++ toString index)
      size := jsNumOr chunk.size 0
      gzipSize := jsNumOr chunk.gzipSize ((chunk.size.getD 0) * 0.3)
      modules := chunk.modules.getD []
      entry := chunk.entry.getD false })

/-- The webpack loader-marker test of `tryParseAsWebpackBundle`
(`content.includes(...)` over four marker substrings). -/
def hasWebpackIndicator (content : String) : Bool :=
  containsSeq "webpack_require".data content.data ||
  containsSeq "__webpack_require__".data content.data ||
  containsSeq "webpackJsonp".data content.data ||
  containsSeq "webpackChunk".data content.data

/-- Source `/^\d+$/` — a non-empty all-digit string. -/
def isAllDigits (s : String) : Bool :=
  s ≠ "" && s.data.all Char.isDigit

/-- The four module-reference patterns of `parseCompiledWebpackBundle`:
`webpack_require(…)` and `__webpack_require__(…)` with a quoted argument,
then the same two with an integer argument. -/
def modulePatterns : List RE :=
  [.cat [lit "webpack_require(", oneOf quoteChars,
         .group 1 (rePlus (noneOf quoteChars)), oneOf quoteChars, lit ")"],
   .cat [lit "__webpack_require__(", oneOf quoteChars,
         .group 1 (rePlus (noneOf quoteChars)), oneOf quoteChars, lit ")"],
   .cat [lit "webpack_require(", .group 1 (rePlus (.chr Char.isDigit)), lit ")"],
   .cat [lit "__webpack_require__(", .group 1 (rePlus (.chr Char.isDigit)), lit ")"]]

/-- The `moduleNames` set of `parseCompiledWebpackBundle`: every capture of
the four patterns, in pattern-then-position order, dropping falsy and
all-digit captures, deduplicated in insertion order (`Set` semantics). -/
def extractModuleNames (content : String) : List String :=
  jsSetOrder ((modulePatterns.map (fun pat =>
    ((execAll pat content).filterMap (fun m => capOf m 1)).filter
      (fun nm => nm ≠ "" && !(isAllDigits nm)))).flatten)

/-- The fixed five-row estimation table of `estimateBundleModules`. -/
def moduleTypesTable : List (String × JsNum) :=
  [("React Core", 0.15), ("React DOM", 0.12), ("Application Code", 0.25),
   ("Dependencies", 0.35), ("Runtime", 0.13)]

/-- Source `estimateBundleModules`: five synthetic modules sized
`Math.floor(totalSize * sizeRatio)` where `totalSize = content.length`. -/
def estimateBundleModules (content : String) : List BundleModule :=
  moduleTypesTable.enum.map (fun p =>
    { id := "estimated-" ++ toString p.1
      name := p.2.1
      size := JsNum.ofInt (JsNum.floor ((content.length : JsNum) * p.2.2))
      path := [p.2.1]
      dependencies := []
      isExternal := false
      type := ModuleType.js })

/-- Mutable-state shape of `BundleAnalyzer` during a run (`insights` is
only written after all files are processed and is derived separately). -/
structure IngestState where
  modules : List BundleModule := []
  chunks : List ChunkData := []
deriving DecidableEq, Repr

/-- Source `parseCompiledWebpackBundle`: named targets get an equal-split module
each plus one entry chunk; otherwise the estimation-table fallback. -/
def parseCompiledWebpackBundle (st : IngestState) (content filename : String) :
    IngestState :=
  let moduleNames := extractModuleNames content
  if moduleNames.length > 0 then
    let moduleSize : JsNum := JsNum.ofInt (JsNum.floor
      ((content.length : JsNum) / (moduleNames.length : JsNum)))
    let mods := moduleNames.enum.map (fun p =>
      { id := "compiled-" ++ toString p.1
        name := p.2
        size := moduleSize
        path := stringSplitOn p.2 "/"
        dependencies := []
        isExternal := false
        type := getFileType (some p.2) : BundleModule })
    let chunkData : ChunkData :=
      { id := "main-bundle"
        name := filename
        size := (content.length : JsNum)
        gzipSize := JsNum.ofInt (JsNum.floor ((content.length : JsNum) * 0.3))
        modules := mods.map (fun m => m.id)
        entry := true }
    { modules := st.modules ++ mods, chunks := st.chunks ++ [chunkData] }
  else
    { st with modules := st.modules ++ estimateBundleModules content }

/-- The `data.sources.forEach` body of `processSourceMap`. -/
def processSourceMapSources (sources : List String) : List BundleModule :=
  sources.enum.map (fun p =>
    { id := "sourcemap-" ++ toString p.1
      name := p.2
      size := estimateSourceSize p.2
      path := stringSplitOn p.2 "/"
      dependencies := []
      isExternal := false
      type := getFileType (some p.2) })

/-- Source `processJavaScriptFile`: one module carrying the full analysis of a
fresh `JavaScriptAnalyzer`. -/
def processJavaScriptFile (st : IngestState) (f : InputFile) : IngestState :=
  let jsAnalysis := (analyzeFile newJSAnalyzer f.text).2
  { st with modules := st.modules ++
      [{ id := "js-" ++ f.name
         name := f.name
         size := f.size
         path := [f.name]
         dependencies := jsAnalysis.dependencies
         isExternal := false
         type := ModuleType.js
         javascriptAnalysis := some jsAnalysis }] }

/-- Source `processFile`: dispatch on the lower-cased final extension.  Every
branch begins by awaiting `file.text()`; when the read rejects the error is
caught (directly, or — for `.js` — after `tryParseAsWebpackBundle` caught
its own copy and the `processJavaScriptFile` retry threw) and the state is
left unchanged, as it is when `JSON.parse` throws or when the extension
matches no branch. -/
def processFile (st : IngestState) (f : InputFile) : IngestState :=
  let extension := fileExtension f.name
  if f.textOk = false then st
  else if extension = "json" then
    match f.json with
    | none => st
    | some data =>
      match data.modules with
      | some ms => { st with modules := st.modules ++ processWebpackModules ms }
      | none =>
        match data.chunks with
        | some cs => { st with chunks := st.chunks ++ processWebpackChunks cs }
        | none => st
  else if extension = "map" then
    match f.json with
    | none => st
    | some data =>
      match data.sources with
      | some srcs => { st with modules := st.modules ++ processSourceMapSources srcs }
      | none => st
  else if extension = "js" then
    if hasWebpackIndicator f.text then parseCompiledWebpackBundle st f.text f.name
    else processJavaScriptFile st f
  else st

/-! ### Insight Rule Engine (`generateInsights` and helpers)

The `description` strings (which interpolate counts, `formatSize` and
`toFixed` output) are not modelled; all other fields are. -/

/-- JS `((totalSize - totalGzipSize) / totalSize) * 100 > 0`, embedded so
that it agrees with the float comparison also at `totalSize = 0`, where JS
produces `NaN` (`gz = 0`, compares false) or `±Infinity` (sign of `-gz`). -/
def compressionRatioGtZero (totalSize totalGzipSize : JsNum) : Bool :=
  if totalSize.num = 0 then decide (totalGzipSize < 0)
  else decide (((totalSize - totalGzipSize) / totalSize) * 100 > 0)

/-- JS `((totalSize - totalGzipSize) / totalSize) * 100 < 30` with the same
`NaN`/`±Infinity` conventions at `totalSize = 0`. -/
def compressionRatioLt30 (totalSize totalGzipSize : JsNum) : Bool :=
  if totalSize.num = 0 then decide (totalGzipSize > 0)
  else decide (((totalSize - totalGzipSize) / totalSize) * 100 < 30)

/-- Source `generatePerformanceInsights(totalSize, totalGzipSize)`: three
independent guard blocks — slow fast-3G load, poor compression, and an
unconditional size-tier `if`/`else if`/`else`. -/
def generatePerformanceInsights (totalSize totalGzipSize : JsNum) :
    List OptimizationInsight :=
  let fast3GTime := (totalSize * 8) / (1.6 * 1024 * 1024)
  (if fast3GTime > 3 then
    [{ id := "slow-3g-load", type := .warning,
       title := "Slow Loading on Mobile Networks", impact := .high,
       recommendation := "Implement aggressive code splitting and lazy loading to improve mobile performance.",
       category := .performance }]
   else []) ++
  (if compressionRatioLt30 totalSize totalGzipSize then
    [{ id := "poor-compression", type := .warning,
       title := "Poor Compression Efficiency", impact := .medium,
       recommendation := "Review your code for opportunities to improve compression (remove comments, minify, use shorter variable names).",
       category := .performance }]
   else []) ++
  (if totalSize > 1024 * 1024 then
    [{ id := "large-bundle-performance", type := .warning,
       title := "Large Bundle Size", impact := .high,
       recommendation := "Consider implementing code splitting, lazy loading, and analyzing dependencies for optimization opportunities.",
       category := .performance }]
   else if totalSize > 500 * 1024 then
    [{ id := "medium-bundle-performance", type := .info,
       title := "Moderate Bundle Size", impact := .medium,
       recommendation := "Implement code splitting for non-critical features to improve initial load time.",
       category := .performance }]
   else
    [{ id := "good-bundle-size", type := .success,
       title := "Good Bundle Size", impact := .low,
       recommendation := "Maintain this size and focus on other optimization areas like caching and delivery.",
       category := .performance }])

/-- Source `generateBasicInsights` (which also invokes
`generatePerformanceInsights` before the file-type diversity rule). -/
def generateBasicInsights (modules : List BundleModule) : List OptimizationInsight :=
  let totalSize := modules.foldl (fun sum m => sum + m.size) 0
  let totalGzipSize := modules.foldl (fun sum m => sum + jsNumOr m.gzipSize (m.size * 0.3)) 0
  let jsModules := modules.filter (fun m => m.type = ModuleType.js)
  (if jsModules.length > 0 then
    [{ id := "bundle-composition", type := .info,
       title := "Bundle Composition Analysis", impact := .low,
       recommendation := "Consider code splitting JavaScript modules and optimizing CSS delivery for better performance.",
       category := .performance }]
   else []) ++
  (if compressionRatioGtZero totalSize totalGzipSize then
    [{ id := "compression-efficiency", type := .success,
       title := "Good Compression Ratio", impact := .low,
       recommendation := "Ensure your server is configured to serve gzipped content for optimal performance.",
       category := .performance }]
   else []) ++
  (if modules.length > 10 then
    [{ id := "module-count", type := .info,
       title := "Modular Bundle Structure", impact := .low,
       recommendation := "This modular structure enables better caching and code splitting opportunities.",
       category := .codeSplitting }]
   else if modules.length ≤ 5 then
    [{ id := "module-count-low", type := .warning,
       title := "Limited Module Separation", impact := .medium,
       recommendation := "Consider breaking down large modules into smaller, more focused pieces for better caching and maintainability.",
       category := .codeSplitting }]
   else []) ++
  generatePerformanceInsights totalSize totalGzipSize ++
  (if (jsSetOrder (modules.map (fun m => m.type))).length > 2 then
    [{ id := "file-type-diversity", type := .info,
       title := "Diverse Asset Types", impact := .low,
       recommendation := "Ensure each asset type is optimized appropriately (minification for JS/CSS, compression for images, etc.).",
       category := .performance }]
   else [])

/-- Stable insertion step: place `x` before the first `y` it is allowed to
precede (`le x y`). -/
def stableInsert {α : Type} (le : α → α → Bool) (x : α) : List α → List α
  | [] => [x]
  | y :: ys => if le x y then x :: y :: ys else y :: stableInsert le x ys

/-- JS `Array.prototype.sort` with a consistent comparator is a stable
sort, whose result is uniquely determined; this structural stable sort
models it (`le x y` = "the comparator lets x stay before y", i.e.
`cmp(x,y) ≤ 0`).  Built here rather than with `List.mergeSort` because the
latter is well-founded recursion, which does not evaluate under `decide`. -/
def stableSort {α : Type} (le : α → α → Bool) : List α → List α
  | [] => []
  | x :: xs => stableInsert le x (stableSort le xs)

theorem stableInsert_perm {α : Type} (le : α → α → Bool) (x : α) (l : List α) :
    (stableInsert le x l).Perm (x :: l) := by
  induction l with
  | nil => simp [stableInsert]
  | cons y ys ih =>
    simp only [stableInsert]
    split
    · exact List.Perm.refl _
    · exact (List.Perm.cons y ih).trans (List.Perm.swap x y ys)

theorem stableSort_perm {α : Type} (le : α → α → Bool) (l : List α) :
    (stableSort le l).Perm l := by
  induction l with
  | nil => simp [stableSort]
  | cons x xs ih =>
    exact (stableInsert_perm le x (stableSort le xs)).trans (List.Perm.cons x ih)

/-- Source `getLargeDependencyRecommendation`. -/
def getLargeDependencyRecommendation (module : BundleModule) : String :=
  let name := stringToLower module.name
  if containsSeq "moment".data name.data then
    "Consider replacing moment.js with dayjs or date-fns for smaller bundle size."
  else if containsSeq "lodash".data name.data then
    "Use lodash-es or import specific functions instead of the full library."
  else if containsSeq "jquery".data name.data then
    "Consider using native DOM APIs or lighter alternatives like zepto.js."
  else
    "Analyze if this dependency is necessary or if there are lighter alternatives available."

/-- Source `analyzeLargeDependencies`: one warning per module over 100 KB, in
descending size order (JS `Array.sort` is stable). -/
def analyzeLargeDependencies (modules : List BundleModule) : List OptimizationInsight :=
  let largeModules := stableSort (fun a b => decide (b.size ≤ a.size))
    (modules.filter (fun m => m.size > 100 * 1024))
  largeModules.map (fun module =>
    { id := "large-dep-" ++ module.id, type := .warning,
      title := "Large Dependency Detected",
      impact := if module.size > 500 * 1024 then .high else .medium,
      recommendation := getLargeDependencyRecommendation module,
      estimatedSavings := some (module.size * 0.3),
      category := .dependency })

/-- Source `analyzeCodeSplittingOpportunities`: one insight per chunk over
200 KB, in descending size order. -/
def analyzeCodeSplittingOpportunities (chunks : List ChunkData) : List OptimizationInsight :=
  let largeChunks := stableSort (fun a b => decide (b.size ≤ a.size))
    (chunks.filter (fun c => c.size > 200 * 1024))
  largeChunks.map (fun chunk =>
    { id := "code-split-" ++ chunk.id, type := .info,
      title := "Code Splitting Opportunity", impact := .medium,
      recommendation := "Consider implementing dynamic imports or route-based code splitting to reduce initial bundle size.",
      estimatedSavings := some (chunk.size * 0.4),
      category := .codeSplitting })

/-- Source `analyzeTreeShakingPotential`. -/
def analyzeTreeShakingPotential (modules : List BundleModule) : List OptimizationInsight :=
  let jsModules := modules.filter (fun m => m.type = ModuleType.js)
  if jsModules.length > 50 then
    [{ id := "tree-shaking", type := .info,
       title := "Tree Shaking Potential", impact := .medium,
       recommendation := "Ensure your bundler is configured for tree shaking and use ES6 modules consistently.",
       category := .treeShaking }]
  else []

/-- Source `analyzeDuplicates`: module names whose first occurrence index differs
from their own position (i.e. the duplicate occurrences). -/
def analyzeDuplicates (modules : List BundleModule) : List OptimizationInsight :=
  let moduleNames := modules.map (fun m => m.name)
  let duplicates := (moduleNames.enum.filter
    (fun p => moduleNames.indexOf p.2 ≠ p.1)).map Prod.snd
  if duplicates.length > 0 then
    [{ id := "duplicates", type := .warning,
       title := "Duplicate Modules Detected", impact := .medium,
       recommendation := "Check for duplicate package installations and consider using bundle analyzer plugins to identify duplicates.",
       category := .duplicates }]
  else []

/-- Source `generateInsights`: the rule families in source invocation order
(`analyzePerformance` is an empty no-op in the source). -/
def generateInsights (modules : List BundleModule) (chunks : List ChunkData) :
    List OptimizationInsight :=
  generateBasicInsights modules ++
  analyzeLargeDependencies modules ++
  analyzeCodeSplittingOpportunities chunks ++
  analyzeTreeShakingPotential modules ++
  analyzeDuplicates modules

/-- Source `metadata.fileTypes` entry: `f.name.split('.').pop() || 'unknown'`
(no lower-casing here, unlike the dispatch extension). -/
def metadataFileType (name : String) : String :=
  let e := (stringSplitOn name ".").getLastD ""
  if e = "" then "unknown" else e

/-- Source `analyzeFiles`: reset state, process the files in order, generate
insights, and assemble the aggregate. -/
def analyzeFiles (files : List InputFile) : BundleData :=
  let st := files.foldl processFile {}
  { totalSize := st.modules.foldl (fun sum m => sum + m.size) 0
    totalGzipSize := st.modules.foldl (fun sum m => sum + jsNumOr m.gzipSize (m.size * 0.3)) 0
    modules := st.modules
    chunks := st.chunks
    insights := generateInsights st.modules st.chunks
    metadata := { fileCount := files.length
                  fileTypes := files.map (fun f => metadataFileType f.name) } }

/-! ### Performance Scoring Engine (class `PerformanceAnalyzer`) -/

/-- Source `calculatePerformanceScore` (src/utils/performanceAnalyzer.ts).  Every
branch adds or subtracts an integer constant from the base 100, so the
running score is an integer in every case and the final `Math.round` is the
identity on it; the embedding therefore computes the pre-clamp score in `ℤ`
and casts the clamped value back to the JS number domain. -/
def calculatePerformanceScore (bundleData : BundleData) : JsNum :=
  let totalSize := bundleData.totalSize
  let totalGzipSize := bundleData.totalGzipSize
  let modules := bundleData.modules
  let sizePenalty : ℤ :=
    if totalSize > 1024 * 1024 then 30
    else if totalSize > 500 * 1024 then 20
    else if totalSize > 250 * 1024 then 10
    else 0
  -- `if (totalGzipSize && totalSize > 0)`: a zero gzip total is falsy
  let compressionPenalty : ℤ :=
    if totalGzipSize.num ≠ 0 ∧ totalSize > 0 then
      if totalGzipSize / totalSize > 0.4 then 15
      else if totalGzipSize / totalSize > 0.3 then 5
      else 0
    else 0
  let moduleCountPenalty : ℤ :=
    if modules.length > 200 then 15
    else if modules.length > 100 then 10
    else if modules.length > 50 then 5
    else 0
  let externalModules := modules.filter (fun m => m.isExternal)
  let externalPenalty : ℤ :=
    if externalModules.length > 30 then 10
    else if externalModules.length > 20 then 5
    else 0
  let chunkBonus : ℤ := if bundleData.chunks.length > 1 then 10 else 0
  let score : ℤ := 100 - sizePenalty - compressionPenalty - moduleCountPenalty
    - externalPenalty + chunkBonus
  JsNum.ofInt (max 0 (min 100 score))

/-! ### Shared lemmas -/

theorem foldl_add_eq_map_sum {α : Type} (f : α → ℚ) (l : List α) :
    l.foldl (fun s x => s + f x) 0 = (l.map f).sum := by
  have h : ∀ acc : ℚ, l.foldl (fun s x => s + f x) acc = acc + (l.map f).sum := by
    induction l with
    | nil => intro acc; simp
    | cons x xs ih =>
      intro acc
      simp only [List.foldl_cons, List.map_cons, List.sum_cons, ih]
      ring
  simpa using h 0

/-- The gzip contribution exactly as the specification words it:
"`module.gzipSize` when present, otherwise `0.3 × module.size`" — to be
compared with the code's `m.gzipSize || m.size * 0.3`. -/
def specGzipOrEstimate (m : BundleModule) : JsNum :=
  match m.gzipSize with
  | some g => g
  | none => m.size * 0.3

/-- A webpack-stats input whose single module carries a present, zero
`gzipSize` field (`{"modules":[{"size":100,"gzipSize":0}]}`). -/
def gzipZeroStatsFile : InputFile :=
  { name := "stats.json", size := 0,
    json := some { modules := some [{ size := some 100, gzipSize := some 0 }] } }


/-! ### Transfer lemmas for concrete evaluation -/

theorem JsNum.beq_iff (x y : JsNum) : JsNum.beq x y = true ↔ x.toRat = y.toRat := by
  show (x.num * y.den == y.num * x.den) = true ↔ (x.num : ℚ) / x.den = (y.num : ℚ) / y.den
  rw [beq_iff_eq, div_eq_div_iff x.den_ne_q y.den_ne_q]
  exact_mod_cast Iff.rfl

theorem JsNum.toRat_zero : (0 : JsNum).toRat = 0 := by
  show ((0 : ℤ) : ℚ) / ((1 : ℤ) : ℚ) = 0
  norm_num

/-- An executable duplicate check (`List.Nodup`'s own `Decidable` instance
goes through `List.Pairwise`, which does not reduce in the kernel). -/
def nodupB {α : Type} [DecidableEq α] : List α → Bool
  | [] => true
  | x :: xs => !(xs.contains x) && nodupB xs

theorem nodupB_iff {α : Type} [DecidableEq α] (l : List α) :
    nodupB l = true ↔ l.Nodup := by
  induction l with
  | nil => simp [nodupB]
  | cons x xs ih =>
    simp only [nodupB, Bool.and_eq_true, Bool.not_eq_true', List.nodup_cons, ih]
    constructor
    · rintro ⟨h1, h2⟩
      exact ⟨by simpa using h1, h2⟩
    · rintro ⟨h1, h2⟩
      exact ⟨by simpa using h1, h2⟩

theorem foldl_add_toRat {α : Type} (f : α → JsNum) (l : List α) :
    (l.foldl (fun s x => s + f x) 0).toRat = (l.map (fun x => (f x).toRat)).sum := by
  have h : ∀ acc : JsNum, (l.foldl (fun s x => s + f x) acc).toRat
      = acc.toRat + (l.map (fun x => (f x).toRat)).sum := by
    induction l with
    | nil => intro acc; simp
    | cons x xs ih =>
      intro acc
      simp only [List.foldl_cons, List.map_cons, List.sum_cons, ih, JsNum.toRat_add]
      ring
  rw [h 0, JsNum.toRat_zero, zero_add]

/-! ### The claims -/

/-- C1 counterexample: on a single-file input whose webpack-stats module
carries a present `gzipSize` of 0 and a size of 100, the aggregate's
`totalGzipSize` is 30 — the code's `gzipSize || size * 0.3` treats the
present 0 as falsy and charges the 30 % estimate — whereas the claimed
formula ("`module.gzipSize` when present, otherwise `0.3 × module.size`")
sums to 0, so the claimed invariant fails on this input. -/
theorem C1_counterexample :
    (analyzeFiles [gzipZeroStatsFile]).totalGzipSize.toRat = 30 ∧
    ((analyzeFiles [gzipZeroStatsFile]).modules.map
      (fun m => (specGzipOrEstimate m).toRat)).sum = 0 ∧
    (analyzeFiles [gzipZeroStatsFile]).totalGzipSize.toRat ≠
      ((analyzeFiles [gzipZeroStatsFile]).modules.map
        (fun m => (specGzipOrEstimate m).toRat)).sum := by
  have h1 : (analyzeFiles [gzipZeroStatsFile]).totalGzipSize.toRat = 30 := by
    have hb : JsNum.beq (analyzeFiles [gzipZeroStatsFile]).totalGzipSize 30 = true := by
      decide
    rw [(JsNum.beq_iff _ _).mp hb, JsNum.toRat_ofNat]
  have h2 : ((analyzeFiles [gzipZeroStatsFile]).modules.map
      (fun m => (specGzipOrEstimate m).toRat)).sum = 0 := by
    have hm : (analyzeFiles [gzipZeroStatsFile]).modules =
        [{ id := "module-0", name := "Module 0", size := 100, gzipSize := some 0,
           path := ["unknown"], dependencies := [], isExternal := false,
           type := ModuleType.other }] := by decide
    rw [hm]
    simp [specGzipOrEstimate, JsNum.toRat_zero]
  exact ⟨h1, h2, by rw [h1, h2]; norm_num⟩

/-- C1 (amended): for every list of input files the aggregate satisfies
`totalSize = Σ module.size`, and `totalGzipSize = Σ (module.gzipSize when
present and non-zero, otherwise 0.3 × module.size)` — the code's `||` also
falls back to the 30 % estimate when a present `gzipSize` is zero. -/
theorem C1_theorem (files : List InputFile) :
    (analyzeFiles files).totalSize.toRat =
      ((analyzeFiles files).modules.map (fun m => m.size.toRat)).sum ∧
    (analyzeFiles files).totalGzipSize.toRat =
      ((analyzeFiles files).modules.map
        (fun m => (jsNumOr m.gzipSize (m.size * 0.3)).toRat)).sum := by
  have e1 : (analyzeFiles files).totalSize =
      (analyzeFiles files).modules.foldl (fun sum m => sum + m.size) 0 := rfl
  have e2 : (analyzeFiles files).totalGzipSize =
      (analyzeFiles files).modules.foldl
        (fun sum m => sum + jsNumOr m.gzipSize (m.size * 0.3)) 0 := rfl
  rw [e1, e2]
  exact ⟨foldl_add_toRat (fun m => m.size) (analyzeFiles files).modules,
         foldl_add_toRat (fun m => jsNumOr m.gzipSize (m.size * 0.3))
           (analyzeFiles files).modules⟩

/-- C2: the performance score is an integer in [0, 100] for every
aggregate, however extreme its totals, module list, external count and
chunk count. -/
theorem C2_theorem (bundleData : BundleData) :
    ∃ n : ℤ, (calculatePerformanceScore bundleData).toRat = (n : ℚ) ∧
      0 ≤ n ∧ n ≤ 100 := by
  simp only [calculatePerformanceScore]
  exact ⟨_, JsNum.toRat_ofInt _, le_max_left _ _,
    max_le (by norm_num) (min_le_left _ _)⟩

/-- C10: the performance score never drops below 30: the four penalty
families subtract at most 30 + 15 + 15 + 10 = 70 from the base 100 and the
chunk bonus is non-negative, so the lower clamp at 0 never binds. -/
theorem C10_theorem (bundleData : BundleData) :
    30 ≤ (calculatePerformanceScore bundleData).toRat := by
  simp only [calculatePerformanceScore]
  rw [JsNum.toRat_ofInt]
  have h30 : (30 : ℚ) = ((30 : ℤ) : ℚ) := by norm_num
  rw [h30, Int.cast_le]
  split_ifs <;> omega

/-- C7: the lexical analyzer is a pure function of its input text: the
returned `JavaScriptAnalysis` does not depend on the instance state left by
any earlier invocation (every state field is overwritten before being
read), so re-invoking on identical text yields an identical record. -/
theorem C7_theorem (st st' : JSAnalyzerState) (content : String) :
    (analyzeFile st content).2 = (analyzeFile st' content).2 := rfl

/-- C3 counterexample: at `totalSize = 400000`, `totalGzipSize = 350000`
the performance-tier rule emits the poor-compression warning *and* the
`good-bundle-size` size-tier insight — the size-tier `if`/`else if`/`else`
runs unconditionally after the first two guards, so a size-tier insight is
emitted, contradicting "the poor-compression warning and not a size-tier
insight" (and "exactly one of the three"). -/
theorem C3_counterexample :
    ((generatePerformanceInsights 400000 350000).map (fun i => i.id)) =
      ["poor-compression", "good-bundle-size"] ∧
    "good-bundle-size" ∈
      ((generatePerformanceInsights 400000 350000).map (fun i => i.id)) := by
  exact ⟨by decide, by decide⟩

/-- C3 (amended): the three performance-tier checks are independent guard
blocks, not an exclusive choice: the size-tier branch always emits exactly
one of its three insights regardless of the earlier checks; in particular,
for an aggregate with `totalSize = 400000` and `totalGzipSize = 350000`
the performance-tier insights emitted are the poor-compression warning
followed by the good-bundle-size success insight. -/
theorem C3_theorem :
    (∀ totalSize totalGzipSize : JsNum,
      ((generatePerformanceInsights totalSize totalGzipSize).filter
        (fun i => i.id = "large-bundle-performance" ∨
          i.id = "medium-bundle-performance" ∨ i.id = "good-bundle-size")).length
        = 1) ∧
    ((generatePerformanceInsights 400000 350000).map (fun i => i.id)) =
      ["poor-compression", "good-bundle-size"] := by
  constructor
  · intro totalSize totalGzipSize
    simp only [generatePerformanceInsights]
    split_ifs <;> decide
  · decide

/-- C8: the file-type confidence is not clamped above: on input consisting
of seven copies of `__webpack_require__` the webpack indicator counts 14
pattern matches (`webpack_require` and `__webpack_require__` each match 7
times), giving a scaled score of 1.12 and a confidence of
`round(1.12 × 100) = 112 > 100`. -/
theorem C8_theorem :
    ∃ content : String,
      100 < ((analyzeFile newJSAnalyzer content).2).confidence.toRat := by
  refine ⟨"__webpack_require__ __webpack_require__ __webpack_require__ " ++
    "__webpack_require__ __webpack_require__ __webpack_require__ " ++
    "__webpack_require__", ?_⟩
  have h : (100 : JsNum) < ((analyzeFile newJSAnalyzer
      ("__webpack_require__ __webpack_require__ __webpack_require__ " ++
       "__webpack_require__ __webpack_require__ __webpack_require__ " ++
       "__webpack_require__")).2).confidence := by decide
  have h2 := (JsNum.lt_iff _ _).mp h
  rwa [JsNum.toRat_ofNat] at h2

theorem JsNum.toRat_ofScientific (m e : ℕ) :
    (OfScientific.ofScientific m true e : JsNum).toRat = (m : ℚ) / ((10 ^ e : ℕ) : ℚ) := by
  show ((m : ℤ) : ℚ) / (((10 ^ e : ℕ) : ℤ) : ℚ) = _
  push_cast
  ring

/-- The five estimation-table sizes are `⌊0.15L⌋, ⌊0.12L⌋, ⌊0.25L⌋, ⌊0.35L⌋,
⌊0.13L⌋` for `L` the text length; the ratios sum to exactly 1, so the five
floors sum to at most `L` and to more than `L - 5`. -/
theorem estimateBundleModules_sum (content : String) :
    ((estimateBundleModules content).map (fun m => m.size.toRat)).sum ≤
      (content.length : ℚ) ∧
    (content.length : ℚ) -
      ((estimateBundleModules content).map (fun m => m.size.toRat)).sum ≤ 5 := by
  constructor <;>
  · simp only [estimateBundleModules, moduleTypesTable, List.enum, List.enumFrom,
      List.map_cons, List.map_nil, List.sum_cons, List.sum_nil, JsNum.toRat_ofInt,
      JsNum.floor_toRat, JsNum.toRat_mul, JsNum.toRat_natCast, JsNum.toRat_ofScientific]
    norm_num
    have b1 := Int.floor_le ((content.length : ℚ) * (3 / 20))
    have b2 := Int.floor_le ((content.length : ℚ) * (3 / 25))
    have b3 := Int.floor_le ((content.length : ℚ) * (1 / 4))
    have b4 := Int.floor_le ((content.length : ℚ) * (7 / 20))
    have b5 := Int.floor_le ((content.length : ℚ) * (13 / 100))
    have c1 := Int.sub_one_lt_floor ((content.length : ℚ) * (3 / 20))
    have c2 := Int.sub_one_lt_floor ((content.length : ℚ) * (3 / 25))
    have c3 := Int.sub_one_lt_floor ((content.length : ℚ) * (1 / 4))
    have c4 := Int.sub_one_lt_floor ((content.length : ℚ) * (7 / 20))
    have c5 := Int.sub_one_lt_floor ((content.length : ℚ) * (13 / 100))
    linarith

/-- C9: a `.js` file whose text contains `__webpack_require__(1)` (so the
compiled-bundle detection fires) but yields no string-literal require
target falls back to the five-row estimation table: processing appends
exactly the five synthetic modules (and no chunk), and their sizes sum to
at most the raw text length, falling short of it by at most 5 bytes. -/
theorem C9_theorem (st : IngestState) (f : InputFile)
    (h1 : fileExtension f.name = "js") (h2 : f.textOk = true)
    (h3 : containsSeq "__webpack_require__(1)".data f.text.data = true)
    (h4 : extractModuleNames f.text = []) :
    processFile st f =
      { st with modules := st.modules ++ estimateBundleModules f.text } ∧
    (estimateBundleModules f.text).length = 5 ∧
    ((estimateBundleModules f.text).map (fun m => m.size.toRat)).sum ≤
      (f.text.length : ℚ) ∧
    (f.text.length : ℚ) -
      ((estimateBundleModules f.text).map (fun m => m.size.toRat)).sum ≤ 5 := by
  have hind : hasWebpackIndicator f.text = true := by
    have hsplit : ("__".data ++ "webpack_require".data ++ "__(1)".data) =
        "__webpack_require__(1)".data := by decide
    have hq : containsSeq "webpack_require".data f.text.data = true :=
      containsSeq_middle _ _ _ _ (by rw [hsplit]; exact h3)
    simp [hasWebpackIndicator, hq]
  refine ⟨?_, rfl, (estimateBundleModules_sum f.text).1,
    (estimateBundleModules_sum f.text).2⟩
  simp [processFile, h1, h2, parseCompiledWebpackBundle, h4, hind]

/-- A witness input for C9: the file `bundle.js` whose whole text is
`__webpack_require__(1)` (length 22; the only require target is the
integer literal 1, which is excluded). -/
def estimationOnlyJsFile : InputFile :=
  { name := "bundle.js", size := 22, text := "__webpack_require__(1)" }

/-- C9 witness: the hypotheses of `C9_theorem` hold for
`estimationOnlyJsFile` and an empty ingestion state, and the theorem
applies to it. -/
theorem C9_witness :
    fileExtension estimationOnlyJsFile.name = "js" ∧
    estimationOnlyJsFile.textOk = true ∧
    containsSeq "__webpack_require__(1)".data estimationOnlyJsFile.text.data = true ∧
    extractModuleNames estimationOnlyJsFile.text = [] ∧
    (processFile {} estimationOnlyJsFile =
      { modules := estimateBundleModules estimationOnlyJsFile.text, chunks := [] } ∧
    (estimateBundleModules estimationOnlyJsFile.text).length = 5 ∧
    ((estimateBundleModules estimationOnlyJsFile.text).map
      (fun m => m.size.toRat)).sum ≤ (estimationOnlyJsFile.text.length : ℚ) ∧
    (estimationOnlyJsFile.text.length : ℚ) -
      ((estimateBundleModules estimationOnlyJsFile.text).map
        (fun m => m.size.toRat)).sum ≤ 5) :=
  ⟨by decide, by decide, by decide, by decide,
   C9_theorem {} estimationOnlyJsFile (by decide) (by decide) (by decide) (by decide)⟩

/-- An aggregate with the exact shape named by the claim — totalSize
1,572,864, 250 modules of which 35 external, 1 chunk — but with
`totalGzipSize = 786432`, i.e. a compression ratio of 0.5. -/
def poorCompression250Bundle : BundleData :=
  { totalSize := 1572864
    totalGzipSize := 786432
    modules :=
      List.replicate 215
        { id := "m", name := "m", size := 0, path := [], dependencies := [],
          isExternal := false, type := ModuleType.js } ++
      List.replicate 35
        { id := "e", name := "e", size := 0, path := [], dependencies := [],
          isExternal := true, type := ModuleType.js }
    chunks := [{ id := "c", name := "c", size := 0, gzipSize := 0, modules := [],
                 entry := false }]
    insights := []
    metadata := { fileCount := 0, fileTypes := [] } }

/-- The same aggregate with `totalGzipSize = 0` (no measured gzip total, so
the compression branch — whose guard treats 0 as falsy — does not fire). -/
def noGzip250Bundle : BundleData :=
  { poorCompression250Bundle with totalGzipSize := 0 }

/-- C5 counterexample: `poorCompression250Bundle` has totalSize 1,572,864,
250 modules (35 external) and 1 chunk, yet its performance score is 30, not
45 — its compression ratio 0.5 exceeds 0.4 and costs a further 15 points,
a condition the claim leaves unconstrained. -/
theorem C5_counterexample :
    poorCompression250Bundle.totalSize.toRat = 1572864 ∧
    poorCompression250Bundle.modules.length = 250 ∧
    (poorCompression250Bundle.modules.filter (fun m => m.isExternal)).length = 35 ∧
    poorCompression250Bundle.chunks.length = 1 ∧
    (calculatePerformanceScore poorCompression250Bundle).toRat = 30 ∧
    (calculatePerformanceScore poorCompression250Bundle).toRat ≠ 45 := by
  have hts : poorCompression250Bundle.totalSize.toRat = 1572864 := by
    have : poorCompression250Bundle.totalSize = (1572864 : JsNum) := rfl
    rw [this, JsNum.toRat_ofNat]
  have hsc : (calculatePerformanceScore poorCompression250Bundle).toRat = 30 := by
    have hb : JsNum.beq (calculatePerformanceScore poorCompression250Bundle) 30
        = true := by decide
    rw [(JsNum.beq_iff _ _).mp hb, JsNum.toRat_ofNat]
  exact ⟨hts, by decide, by decide, by decide, hsc, by rw [hsc]; norm_num⟩

/-- C5 (amended): for every aggregate with totalSize 1,572,864 bytes,
`totalGzipSize = 0` (so the compression penalty does not fire), exactly 250
modules of which exactly 35 external, and exactly 1 chunk, the performance
score is 45 = 100 − 30 (size) − 15 (module count) − 10 (external count)
with no multi-chunk bonus. -/
theorem C5_theorem (bundleData : BundleData)
    (h1 : bundleData.totalSize.toRat = 1572864)
    (h2 : bundleData.totalGzipSize.toRat = 0)
    (h3 : bundleData.modules.length = 250)
    (h4 : (bundleData.modules.filter (fun m => m.isExternal)).length = 35)
    (h5 : bundleData.chunks.length = 1) :
    (calculatePerformanceScore bundleData).toRat = 45 := by
  have t1 : ((1024 * 1024 : JsNum)).toRat = 1048576 := by
    rw [JsNum.toRat_mul, JsNum.toRat_ofNat]; norm_num
  have hsize : bundleData.totalSize > 1024 * 1024 := by
    rw [gt_iff_lt, JsNum.lt_iff, t1, h1]; norm_num
  have hgz : ¬ (bundleData.totalGzipSize.num ≠ 0 ∧ bundleData.totalSize > 0) := by
    rintro ⟨hn, _⟩
    exact hn ((JsNum.toRat_eq_zero_iff _).mp h2)
  simp only [calculatePerformanceScore, if_pos hsize, if_neg hgz, h3, h4, h5]
  norm_num [JsNum.toRat_ofInt]

/-- C5 witness: the amended hypotheses hold for `noGzip250Bundle` and the
amended theorem yields its score 45. -/
theorem C5_witness :
    noGzip250Bundle.totalSize.toRat = 1572864 ∧
    noGzip250Bundle.totalGzipSize.toRat = 0 ∧
    noGzip250Bundle.modules.length = 250 ∧
    (noGzip250Bundle.modules.filter (fun m => m.isExternal)).length = 35 ∧
    noGzip250Bundle.chunks.length = 1 ∧
    (calculatePerformanceScore noGzip250Bundle).toRat = 45 := by
  have p1 : noGzip250Bundle.totalSize.toRat = 1572864 := by
    have : noGzip250Bundle.totalSize = (1572864 : JsNum) := rfl
    rw [this, JsNum.toRat_ofNat]
  have p2 : noGzip250Bundle.totalGzipSize.toRat = 0 := by
    have : noGzip250Bundle.totalGzipSize = (0 : JsNum) := rfl
    rw [this, JsNum.toRat_zero]
  have p3 : noGzip250Bundle.modules.length = 250 := by decide
  have p4 : (noGzip250Bundle.modules.filter (fun m => m.isExternal)).length = 35 := by
    decide
  have p5 : noGzip250Bundle.chunks.length = 1 := by decide
  exact ⟨p1, p2, p3, p4, p5, C5_theorem noGzip250Bundle p1 p2 p3 p4 p5⟩

/-- A file fails per-file processing when its read rejects, or when it is
dispatched to a JSON parse (`.json`/`.map`) and `JSON.parse` throws. -/
def fileFails (f : InputFile) : Prop :=
  f.textOk = false ∨
  ((fileExtension f.name = "json" ∨ fileExtension f.name = "map") ∧ f.json = none)

/-- A failing file leaves the ingestion state untouched: the error is
caught inside `processFile` and the file is skipped. -/
theorem processFile_skip {f : InputFile} (h : fileFails f) (st : IngestState) :
    processFile st f = st := by
  rcases h with h | ⟨hext, hjson⟩
  · simp [processFile, h]
  · by_cases ht : f.textOk = false
    · simp [processFile, ht]
    · rcases hext with hj | hm
      · simp [processFile, ht, hj, hjson]
      · simp [processFile, ht, hm, hjson]

/-- A healthy webpack-stats input used alongside the failing one. -/
def smallStatsFile : InputFile :=
  { name := "ok.json", size := 0,
    json := some { modules := some [{ name := some "a.js", size := some 5 }] } }

/-- A `.json` input whose content is not parseable JSON. -/
def badJsonFile : InputFile :=
  { name := "bad.json", size := 0, text := "not json", json := none }

/-- C6 counterexample: with the input list `[smallStatsFile, badJsonFile]`
the failing file contributes no modules, chunks or insights — those equal
the run without it — but the metadata is *not* identical to that run's:
`fileCount` still counts the failing file and `fileTypes` still lists its
extension, so the failing file does contribute to the aggregate's metadata,
contrary to the claim. -/
theorem C6_counterexample :
    (analyzeFiles [smallStatsFile, badJsonFile]).modules =
      (analyzeFiles [smallStatsFile]).modules ∧
    (analyzeFiles [smallStatsFile, badJsonFile]).chunks =
      (analyzeFiles [smallStatsFile]).chunks ∧
    (analyzeFiles [smallStatsFile, badJsonFile]).insights =
      (analyzeFiles [smallStatsFile]).insights ∧
    (analyzeFiles [smallStatsFile, badJsonFile]).metadata ≠
      (analyzeFiles [smallStatsFile]).metadata ∧
    (analyzeFiles [smallStatsFile, badJsonFile]).metadata.fileCount = 2 ∧
    (analyzeFiles [smallStatsFile, badJsonFile]).metadata.fileTypes =
      ["json", "json"] := by
  exact ⟨by decide, by decide, by decide, by decide, by decide, by decide⟩

/-- C6 (amended): a failing file is skipped and contributes nothing to the
modules, chunks, insights or totals — those components equal the run
without the failing file — but the metadata still records it: `fileCount`
counts it and `fileTypes` keeps its extension entry. -/
theorem C6_theorem (pre post : List InputFile) (f : InputFile) (h : fileFails f) :
    (analyzeFiles (pre ++ f :: post)).modules = (analyzeFiles (pre ++ post)).modules ∧
    (analyzeFiles (pre ++ f :: post)).chunks = (analyzeFiles (pre ++ post)).chunks ∧
    (analyzeFiles (pre ++ f :: post)).insights = (analyzeFiles (pre ++ post)).insights ∧
    (analyzeFiles (pre ++ f :: post)).totalSize = (analyzeFiles (pre ++ post)).totalSize ∧
    (analyzeFiles (pre ++ f :: post)).totalGzipSize =
      (analyzeFiles (pre ++ post)).totalGzipSize ∧
    (analyzeFiles (pre ++ f :: post)).metadata.fileCount =
      (analyzeFiles (pre ++ post)).metadata.fileCount + 1 := by
  have hst : (pre ++ f :: post).foldl processFile {} = (pre ++ post).foldl processFile {} := by
    rw [List.foldl_append, List.foldl_append, List.foldl_cons, processFile_skip h]
  refine ⟨?_, ?_, ?_, ?_, ?_, ?_⟩ <;>
    simp [analyzeFiles, hst, List.length_append]
  omega

/-- C6 witness: `badJsonFile` fails, and ingesting `[smallStatsFile,
badJsonFile]` gives the same modules, chunks, insights and totals as
ingesting `[smallStatsFile]` alone, with `fileCount` one higher. -/
theorem C6_witness :
    fileFails badJsonFile ∧
    ((analyzeFiles ([smallStatsFile] ++ badJsonFile :: [])).modules =
      (analyzeFiles ([smallStatsFile] ++ [])).modules ∧
    (analyzeFiles ([smallStatsFile] ++ badJsonFile :: [])).chunks =
      (analyzeFiles ([smallStatsFile] ++ [])).chunks ∧
    (analyzeFiles ([smallStatsFile] ++ badJsonFile :: [])).insights =
      (analyzeFiles ([smallStatsFile] ++ [])).insights ∧
    (analyzeFiles ([smallStatsFile] ++ badJsonFile :: [])).totalSize =
      (analyzeFiles ([smallStatsFile] ++ [])).totalSize ∧
    (analyzeFiles ([smallStatsFile] ++ badJsonFile :: [])).totalGzipSize =
      (analyzeFiles ([smallStatsFile] ++ [])).totalGzipSize ∧
    (analyzeFiles ([smallStatsFile] ++ badJsonFile :: [])).metadata.fileCount =
      (analyzeFiles ([smallStatsFile] ++ [])).metadata.fileCount + 1) :=
  ⟨Or.inr ⟨Or.inl (by decide), rfl⟩,
   C6_theorem [smallStatsFile] [] badJsonFile (Or.inr ⟨Or.inl (by decide), rfl⟩)⟩

/-! ### Insight-id uniqueness machinery (C4) -/

theorem string_eq_of_data {a b : String} (h : a.data = b.data) : a = b := by
  cases a; cases b; exact congrArg String.mk h

theorem string_append_left_inj (p : String) :
    Function.Injective (fun s : String => p ++ s) := by
  intro a b h
  apply string_eq_of_data
  have h2 : p.data ++ a.data = p.data ++ b.data := by
    have := congrArg String.data h
    simpa [String.data_append] using this
  exact List.append_cancel_left h2

/-- A string whose leading characters differ from `p` is not `p ++ x`. -/
theorem ne_append_of_take_ne {p c : String}
    (h : c.data.take p.data.length ≠ p.data) (x : String) : c ≠ p ++ x := by
  intro heq
  apply h
  rw [heq, String.data_append, List.take_left]

/-- Ids prefixed `large-dep-` and `code-split-` never coincide. -/
theorem largeDep_ne_codeSplit (a b : String) :
    "large-dep-" ++ a ≠ "code-split-" ++ b := by
  intro h
  have h2 := congrArg (fun s : String => s.data.take 10) h
  simp only [String.data_append] at h2
  rw [List.take_append_of_le_length (by decide),
      List.take_append_of_le_length (by decide)] at h2
  exact absurd h2 (by decide)

/-- The ten ids that `generateBasicInsights` (with its embedded
`generatePerformanceInsights`) can emit. -/
def basicFixedIds : List String :=
  ["bundle-composition", "compression-efficiency", "module-count",
   "module-count-low", "slow-3g-load", "poor-compression",
   "large-bundle-performance", "medium-bundle-performance",
   "good-bundle-size", "file-type-diversity"]

/-- The twelve fixed ids of the whole rule battery. -/
def fixedInsightIds : List String :=
  basicFixedIds ++ ["tree-shaking", "duplicates"]

theorem fixed_not_prefixed :
    ∀ c ∈ fixedInsightIds,
      (∀ a, c ≠ "large-dep-" ++ a) ∧ (∀ a, c ≠ "code-split-" ++ a) := by
  intro c hc
  fin_cases hc <;>
    exact ⟨fun a => ne_append_of_take_ne (by decide) a,
           fun a => ne_append_of_take_ne (by decide) a⟩

theorem mem_ite_list {α : Type} {c : Prop} [Decidable c] {l1 l2 : List α} {x : α}
    (h : x ∈ (if c then l1 else l2)) : x ∈ l1 ∨ x ∈ l2 := by
  split at h
  · exact Or.inl h
  · exact Or.inr h

theorem generateBasicInsights_ids_mem (modules : List BundleModule) :
    ∀ x ∈ (generateBasicInsights modules).map (fun i => i.id), x ∈ basicFixedIds := by
  intro x hx
  rcases List.mem_map.mp hx with ⟨i, hi, rfl⟩
  simp only [generateBasicInsights, generatePerformanceInsights, List.mem_append] at hi
  rcases hi with (((h | h) | h) | ((h | h) | h)) | h <;>
    (repeat' (rcases mem_ite_list h with h | h)) <;>
    first
      | exact absurd h (List.not_mem_nil _)
      | (rw [List.mem_singleton] at h
         subst h
         decide)

theorem generateBasicInsights_ids_nodup (modules : List BundleModule) :
    ((generateBasicInsights modules).map (fun i => i.id)).Nodup := by
  simp only [generateBasicInsights, generatePerformanceInsights]
  split_ifs <;> (rw [← nodupB_iff]; decide)

theorem analyzeLargeDependencies_ids (modules : List BundleModule) :
    (analyzeLargeDependencies modules).map (fun i => i.id) =
      (stableSort (fun a b => decide (b.size ≤ a.size))
        (modules.filter (fun m => m.size > 100 * 1024))).map
          (fun m => "large-dep-" ++ m.id) := by
  simp only [analyzeLargeDependencies, List.map_map]
  rfl

theorem analyzeLargeDependencies_ids_shape (modules : List BundleModule) :
    ∀ x ∈ (analyzeLargeDependencies modules).map (fun i => i.id),
      ∃ a, x = "large-dep-" ++ a := by
  rw [analyzeLargeDependencies_ids]
  intro x hx
  rcases List.mem_map.mp hx with ⟨m, _, rfl⟩
  exact ⟨m.id, rfl⟩

theorem analyzeLargeDependencies_ids_nodup (modules : List BundleModule)
    (hm : (modules.map (fun m => m.id)).Nodup) :
    ((analyzeLargeDependencies modules).map (fun i => i.id)).Nodup := by
  rw [analyzeLargeDependencies_ids]
  have hperm := (stableSort_perm (fun a b => decide (b.size ≤ a.size))
    (modules.filter (fun m => m.size > 100 * 1024))).map
      (fun m => "large-dep-" ++ m.id)
  rw [hperm.nodup_iff]
  rw [show (modules.filter (fun m => m.size > 100 * 1024)).map
        (fun m => "large-dep-" ++ m.id)
      = ((modules.filter (fun m => m.size > 100 * 1024)).map (fun m => m.id)).map
          (fun s => "large-dep-" ++ s) from by rw [List.map_map]; rfl]
  exact (hm.sublist ((List.filter_sublist _).map _)).map (string_append_left_inj _)

theorem analyzeCodeSplittingOpportunities_ids (chunks : List ChunkData) :
    (analyzeCodeSplittingOpportunities chunks).map (fun i => i.id) =
      (stableSort (fun a b => decide (b.size ≤ a.size))
        (chunks.filter (fun c => c.size > 200 * 1024))).map
          (fun c => "code-split-" ++ c.id) := by
  simp only [analyzeCodeSplittingOpportunities, List.map_map]
  rfl

theorem analyzeCodeSplittingOpportunities_ids_shape (chunks : List ChunkData) :
    ∀ x ∈ (analyzeCodeSplittingOpportunities chunks).map (fun i => i.id),
      ∃ a, x = "code-split-" ++ a := by
  rw [analyzeCodeSplittingOpportunities_ids]
  intro x hx
  rcases List.mem_map.mp hx with ⟨c, _, rfl⟩
  exact ⟨c.id, rfl⟩

theorem analyzeCodeSplittingOpportunities_ids_nodup (chunks : List ChunkData)
    (hc : (chunks.map (fun c => c.id)).Nodup) :
    ((analyzeCodeSplittingOpportunities chunks).map (fun i => i.id)).Nodup := by
  rw [analyzeCodeSplittingOpportunities_ids]
  have hperm := (stableSort_perm (fun a b => decide (b.size ≤ a.size))
    (chunks.filter (fun c => c.size > 200 * 1024))).map
      (fun c => "code-split-" ++ c.id)
  rw [hperm.nodup_iff]
  rw [show (chunks.filter (fun c => c.size > 200 * 1024)).map
        (fun c => "code-split-" ++ c.id)
      = ((chunks.filter (fun c => c.size > 200 * 1024)).map (fun c => c.id)).map
          (fun s => "code-split-" ++ s) from by rw [List.map_map]; rfl]
  exact (hc.sublist ((List.filter_sublist _).map _)).map (string_append_left_inj _)

theorem analyzeTreeShakingPotential_ids (modules : List BundleModule) :
    ∀ x ∈ (analyzeTreeShakingPotential modules).map (fun i => i.id),
      x = "tree-shaking" := by
  intro x hx
  simp only [analyzeTreeShakingPotential] at hx
  split at hx <;> simp_all

theorem analyzeTreeShakingPotential_ids_nodup (modules : List BundleModule) :
    ((analyzeTreeShakingPotential modules).map (fun i => i.id)).Nodup := by
  simp only [analyzeTreeShakingPotential]
  split <;> (rw [← nodupB_iff]; decide)

theorem analyzeDuplicates_ids (modules : List BundleModule) :
    ∀ x ∈ (analyzeDuplicates modules).map (fun i => i.id), x = "duplicates" := by
  intro x hx
  simp only [analyzeDuplicates] at hx
  split at hx <;> simp_all

theorem analyzeDuplicates_ids_nodup (modules : List BundleModule) :
    ((analyzeDuplicates modules).map (fun i => i.id)).Nodup := by
  simp only [analyzeDuplicates]
  split <;> (rw [← nodupB_iff]; decide)

theorem generateInsights_nodup (modules : List BundleModule) (chunks : List ChunkData)
    (hm : (modules.map (fun m => m.id)).Nodup)
    (hc : (chunks.map (fun c => c.id)).Nodup) :
    ((generateInsights modules chunks).map (fun i => i.id)).Nodup := by
  have hBmem := generateBasicInsights_ids_mem modules
  have hLDshape := analyzeLargeDependencies_ids_shape modules
  have hCSshape := analyzeCodeSplittingOpportunities_ids_shape chunks
  have hTSmem := analyzeTreeShakingPotential_ids modules
  have hDUPmem := analyzeDuplicates_ids modules
  have hBasicFix : ∀ c ∈ basicFixedIds, c ∈ fixedInsightIds := by decide
  have hTSfix : ("tree-shaking" : String) ∈ fixedInsightIds := by decide
  have hDUPfix : ("duplicates" : String) ∈ fixedInsightIds := by decide
  have dBL : ((generateBasicInsights modules).map (fun i => i.id)).Disjoint
      ((analyzeLargeDependencies modules).map (fun i => i.id)) := by
    intro x hxB hxL
    rcases hLDshape x hxL with ⟨a, rfl⟩
    exact (fixed_not_prefixed _ (hBasicFix _ (hBmem _ hxB))).1 a rfl
  have dBC : ((generateBasicInsights modules).map (fun i => i.id)).Disjoint
      ((analyzeCodeSplittingOpportunities chunks).map (fun i => i.id)) := by
    intro x hxB hxC
    rcases hCSshape x hxC with ⟨a, rfl⟩
    exact (fixed_not_prefixed _ (hBasicFix _ (hBmem _ hxB))).2 a rfl
  have dLC : ((analyzeLargeDependencies modules).map (fun i => i.id)).Disjoint
      ((analyzeCodeSplittingOpportunities chunks).map (fun i => i.id)) := by
    intro x hxL hxC
    rcases hLDshape x hxL with ⟨a, rfl⟩
    rcases hCSshape _ hxC with ⟨b, heq⟩
    exact largeDep_ne_codeSplit a b heq
  have dBT : ((generateBasicInsights modules).map (fun i => i.id)).Disjoint
      ((analyzeTreeShakingPotential modules).map (fun i => i.id)) := by
    intro x hxB hxT
    have h1 := hBmem _ hxB
    rw [hTSmem _ hxT] at h1
    exact absurd h1 (by decide)
  have dLT : ((analyzeLargeDependencies modules).map (fun i => i.id)).Disjoint
      ((analyzeTreeShakingPotential modules).map (fun i => i.id)) := by
    intro x hxL hxT
    rcases hLDshape x hxL with ⟨a, rfl⟩
    exact (fixed_not_prefixed _ hTSfix).1 a (hTSmem _ hxT).symm
  have dCT : ((analyzeCodeSplittingOpportunities chunks).map (fun i => i.id)).Disjoint
      ((analyzeTreeShakingPotential modules).map (fun i => i.id)) := by
    intro x hxC hxT
    rcases hCSshape x hxC with ⟨a, rfl⟩
    exact (fixed_not_prefixed _ hTSfix).2 a (hTSmem _ hxT).symm
  have dBD : ((generateBasicInsights modules).map (fun i => i.id)).Disjoint
      ((analyzeDuplicates modules).map (fun i => i.id)) := by
    intro x hxB hxD
    have h1 := hBmem _ hxB
    rw [hDUPmem _ hxD] at h1
    exact absurd h1 (by decide)
  have dLD : ((analyzeLargeDependencies modules).map (fun i => i.id)).Disjoint
      ((analyzeDuplicates modules).map (fun i => i.id)) := by
    intro x hxL hxD
    rcases hLDshape x hxL with ⟨a, rfl⟩
    exact (fixed_not_prefixed _ hDUPfix).1 a (hDUPmem _ hxD).symm
  have dCD : ((analyzeCodeSplittingOpportunities chunks).map (fun i => i.id)).Disjoint
      ((analyzeDuplicates modules).map (fun i => i.id)) := by
    intro x hxC hxD
    rcases hCSshape x hxC with ⟨a, rfl⟩
    exact (fixed_not_prefixed _ hDUPfix).2 a (hDUPmem _ hxD).symm
  have dTD : ((analyzeTreeShakingPotential modules).map (fun i => i.id)).Disjoint
      ((analyzeDuplicates modules).map (fun i => i.id)) := by
    intro x hxT hxD
    have h1 := hTSmem _ hxT
    have h2 := hDUPmem _ hxD
    rw [h1] at h2
    exact absurd h2 (by decide)
  simp only [generateInsights, List.map_append, List.nodup_append,
    List.disjoint_append_left]
  repeat' apply And.intro
  all_goals
    first
      | exact generateBasicInsights_ids_nodup modules
      | exact analyzeLargeDependencies_ids_nodup modules hm
      | exact analyzeCodeSplittingOpportunities_ids_nodup chunks hc
      | exact analyzeTreeShakingPotential_ids_nodup modules
      | exact analyzeDuplicates_ids_nodup modules
      | exact dBL
      | exact dBC
      | exact dLC
      | exact dBT
      | exact dLT
      | exact dCT
      | exact dBD
      | exact dLD
      | exact dCD
      | exact dTD

/-- Two webpack-stats inputs whose single module entry has no `id` field,
so both synthesize the per-file id `module-0`, with a size large enough to
trigger the per-module large-dependency insight. -/
def statsNoIdA : InputFile :=
  { name := "a.json", size := 0,
    json := some { modules := some [{ size := some 200000 }] } }

/-- A second copy under another file name. -/
def statsNoIdB : InputFile :=
  { name := "b.json", size := 0,
    json := some { modules := some [{ size := some 200000 }] } }

/-- C4 counterexample: ingesting the two stats files yields two modules
that both get the synthesized id `module-0` (the per-file index restarts at
0), both exceed 100 KB, and the large-dependency rule emits the insight id
`large-dep-module-0` twice — the aggregate's insight ids are not pairwise
distinct. -/
theorem C4_counterexample :
    ¬ ((analyzeFiles [statsNoIdA, statsNoIdB]).insights.map (fun i => i.id)).Nodup := by
  rw [← nodupB_iff]
  decide

/-- C4 (amended): within a single ingestion run the insight ids are
pairwise distinct *provided* the module ids and the chunk ids of the
aggregate are themselves pairwise distinct; inputs with several source-map
files, several estimation-fallback bundles, or repeated webpack-stats
entries can repeat the per-file synthesized module ids, and then the
per-module insight ids repeat with them. -/
theorem C4_theorem (files : List InputFile)
    (hm : ((analyzeFiles files).modules.map (fun m => m.id)).Nodup)
    (hc : ((analyzeFiles files).chunks.map (fun c => c.id)).Nodup) :
    ((analyzeFiles files).insights.map (fun i => i.id)).Nodup :=
  generateInsights_nodup (analyzeFiles files).modules (analyzeFiles files).chunks hm hc

/-- C4 witness: a single stats file gives distinct module and chunk ids,
and the amended theorem yields distinct insight ids for its run. -/
theorem C4_witness :
    ((analyzeFiles [statsNoIdA]).modules.map (fun m => m.id)).Nodup ∧
    ((analyzeFiles [statsNoIdA]).chunks.map (fun c => c.id)).Nodup ∧
    ((analyzeFiles [statsNoIdA]).insights.map (fun i => i.id)).Nodup := by
  have h1 : ((analyzeFiles [statsNoIdA]).modules.map (fun m => m.id)).Nodup := by
    rw [← nodupB_iff]; decide
  have h2 : ((analyzeFiles [statsNoIdA]).chunks.map (fun c => c.id)).Nodup := by
    rw [← nodupB_iff]; decide
  exact ⟨h1, h2, C4_theorem [statsNoIdA] h1 h2⟩
